import Mathlib

/-!
Verification development for the VIDNA photo-filter backend
(`src/api/generate-filter.py`, `src/api/refine-filter.py`, `src/api/match-style.py`).

Python strings are modelled as `List Char`, Python numbers (JSON numbers,
`int`/`float`) as exact rationals `ℚ` extended with `nan`/`inf`/`-inf`;
floating-point representation error is outside the model.  Python code that
can raise is modelled in the `Except PyErr` monad, with one `PyErr`
constructor per family of exception raised by the source.
-/

namespace VIDNA

/- Batteries marks the `Rat` field operations irreducible; computing the
modelled functions on concrete inputs (for witnesses and counterexamples)
needs them to unfold. -/
attribute [local semireducible] Rat.ofScientific Rat.mul Rat.inv Rat.add Rat.sub

abbrev PyStr := List Char

def pyStr (s : String) : PyStr := s.data

/-- Whitespace set of Python `str.strip()` (ASCII part, which is all the
source ever strips). -/
def isSpaceChar (c : Char) : Bool :=
  c = ' ' || c = '\t' || c = '\n' || c = '\r' || c = '\x0b' || c = '\x0c'

def stripLeft (s : PyStr) : PyStr := s.dropWhile isSpaceChar

def stripRight (s : PyStr) : PyStr := (s.reverse.dropWhile isSpaceChar).reverse

/-- Python `str.strip()`: remove whitespace from both ends. -/
def pyStrip (s : PyStr) : PyStr := stripLeft (stripRight s)

/-- Python `str.startswith`. -/
def pyStartsWith (pat s : PyStr) : Bool := pat.isPrefixOf s

/-- Fuelled worker for `pyReplace`; the fuel is an upper bound on the number
of characters still to be scanned, so `fuel = s.length` fully processes `s`. -/
def replAux (pat rep : PyStr) : Nat → PyStr → PyStr
  | _, [] => []
  | 0, s => s
  | fuel + 1, c :: s =>
    if pat ≠ [] ∧ pat.isPrefixOf (c :: s) then
      rep ++ replAux pat rep fuel ((c :: s).drop pat.length)
    else
      c :: replAux pat rep fuel s

/-- Python `str.replace`: replace every non-overlapping occurrence of `pat`,
scanning left to right.  (Python's behaviour for an empty `pat` is not
modelled; the source only ever replaces the non-empty patterns
&#96;&#96;&#96;json and &#96;&#96;&#96;.) -/
def pyReplace (pat rep s : PyStr) : PyStr := replAux pat rep s.length s

/-- Extended Python number: an exact rational, or one of the non-finite
floats `nan`, `inf`, `-inf` (which Python's `json.loads` accepts). -/
inductive PNum where
  | rat (q : ℚ)
  | nan
  | inf
  | ninf
deriving DecidableEq

/-- JSON value as produced by Python's `json.loads` (object represented as
the key/value list in source order; lookups take the last occurrence of a
key, matching `dict` construction). -/
inductive Json where
  | null
  | bool (b : Bool)
  | num (x : PNum)
  | str (s : PyStr)
  | arr (xs : List Json)
  | obj (fields : List (PyStr × Json))

/-- Python truthiness (`bool(x)`) of a JSON-derived value. -/
def pyFalsy : Json → Bool
  | .null => true
  | .bool b => !b
  | .num (.rat q) => q = 0
  | .num _ => false
  | .str s => s.isEmpty
  | .arr xs => xs.isEmpty
  | .obj fs => fs.isEmpty

/-- Last binding of key `k` in an object's field list (Python `dict` keeps
the last duplicate). -/
def objFind (fs : List (PyStr × Json)) (k : PyStr) : Option Json :=
  ((fs.filter (fun p => p.1 = k)).getLast?).map (·.2)

/-- Python `dict.get(k, d)`. -/
def pyGetD (fs : List (PyStr × Json)) (k : PyStr) (d : Json) : Json :=
  (objFind fs k).getD d

/-- Python `k in dict`. -/
def pyHasKey (fs : List (PyStr × Json)) (k : PyStr) : Bool :=
  (objFind fs k).isSome

/-- JSON whitespace accepted between tokens by Python's `json.loads`. -/
def jsonWsChar (c : Char) : Bool := c = ' ' || c = '\t' || c = '\n' || c = '\r'

def skipWs (s : PyStr) : PyStr := s.dropWhile jsonWsChar

def hexVal (c : Char) : Option Nat :=
  if '0' ≤ c ∧ c ≤ '9' then some (c.toNat - '0'.toNat)
  else if 'a' ≤ c ∧ c ≤ 'f' then some (c.toNat - 'a'.toNat + 10)
  else if 'A' ≤ c ∧ c ≤ 'F' then some (c.toNat - 'A'.toNat + 10)
  else none

/-- Body of a JSON string literal (the opening quote already consumed):
returns the decoded characters and the input after the closing quote. -/
def parseJStrAux : Nat → PyStr → Option (PyStr × PyStr)
  | 0, _ => none
  | _, [] => none
  | fuel + 1, c :: s =>
    if c = '"' then some ([], s)
    else if c = '\\' then
      match s with
      | [] => none
      | e :: s' =>
        let cont := fun (ch : Char) (rest : PyStr) =>
          (parseJStrAux fuel rest).map (fun p => (ch :: p.1, p.2))
        match e with
        | '"' => cont '"' s'
        | '\\' => cont '\\' s'
        | '/' => cont '/' s'
        | 'b' => cont '\x08' s'
        | 'f' => cont '\x0c' s'
        | 'n' => cont '\n' s'
        | 'r' => cont '\r' s'
        | 't' => cont '\t' s'
        | 'u' =>
          match s' with
          | a :: b :: c2 :: d :: s'' =>
            match hexVal a, hexVal b, hexVal c2, hexVal d with
            | some ha, some hb, some hc, some hd =>
              cont (Char.ofNat (((ha * 16 + hb) * 16 + hc) * 16 + hd)) s''
            | _, _, _, _ => none
          | _ => none
        | _ => none
    else if c.toNat < 0x20 then none
    else (parseJStrAux fuel s).map (fun p => (c :: p.1, p.2))

def parseJStr (s : PyStr) : Option (PyStr × PyStr) := parseJStrAux s.length s

def digitsToNat (ds : PyStr) : Nat :=
  ds.foldl (fun a c => a * 10 + (c.toNat - '0'.toNat)) 0

/-- Fractional part `.digits` (optional). -/
def parseFracPart : PyStr → Option (PyStr × PyStr)
  | '.' :: r =>
    let ds := r.takeWhile Char.isDigit
    if ds = [] then none else some (ds, r.dropWhile Char.isDigit)
  | s => some ([], s)

/-- Exponent part `e`/`E` with optional sign (optional). -/
def parseExpPart : PyStr → Option (Int × PyStr)
  | [] => some (0, [])
  | c :: r =>
    if c = 'e' ∨ c = 'E' then
      let sr : Int × PyStr :=
        match r with
        | '+' :: t => (1, t)
        | '-' :: t => (-1, t)
        | _ => (1, r)
      let ds := sr.2.takeWhile Char.isDigit
      if ds = [] then none
      else some (sr.1 * (digitsToNat ds : Int), sr.2.dropWhile Char.isDigit)
    else some (0, c :: r)

/-- JSON number literal `-?(0|[1-9][0-9]*)(.[0-9]+)?([eE][+-]?[0-9]+)?`
(the int/float distinction of `json.loads` is collapsed into `ℚ`). -/
def parseJNum (s : PyStr) : Option (ℚ × PyStr) :=
  let ns : Bool × PyStr := match s with | '-' :: r => (true, r) | _ => (false, s)
  let ip := ns.2.takeWhile Char.isDigit
  let s1 := ns.2.dropWhile Char.isDigit
  if ip = [] then none
  else if 1 < ip.length ∧ ip.head? = some '0' then none
  else
    match parseFracPart s1 with
    | none => none
    | some (fp, s2) =>
      match parseExpPart s2 with
      | none => none
      | some (ex, s3) =>
        let base : ℚ := (digitsToNat ip : ℚ) + (digitsToNat fp : ℚ) / 10 ^ fp.length
        let m : ℚ := if ns.1 then -base else base
        some (m * (10 : ℚ) ^ ex, s3)

/-- Parser mode: a single value, the items of an array (after `[`), or the
members of an object (after the opening brace). -/
inductive PMode where
  | val
  | arrItems
  | objItems

/-- Intermediate parse result for `parseCore`. -/
inductive PRes where
  | v (j : Json)
  | items (xs : List Json)
  | fields (fs : List (PyStr × Json))

/-- Recursive-descent core of `json.loads`, fuelled so that the recursion is
structural (hence kernel-computable).  Trailing commas are rejected, as in
Python. -/
def parseCore : Nat → PMode → PyStr → Option (PRes × PyStr)
  | 0, _, _ => none
  | fuel + 1, .val, s =>
    match s with
    | 'n' :: 'u' :: 'l' :: 'l' :: r => some (.v .null, r)
    | 't' :: 'r' :: 'u' :: 'e' :: r => some (.v (.bool true), r)
    | 'f' :: 'a' :: 'l' :: 's' :: 'e' :: r => some (.v (.bool false), r)
    | 'N' :: 'a' :: 'N' :: r => some (.v (.num .nan), r)
    | 'I' :: 'n' :: 'f' :: 'i' :: 'n' :: 'i' :: 't' :: 'y' :: r => some (.v (.num .inf), r)
    | '-' :: 'I' :: 'n' :: 'f' :: 'i' :: 'n' :: 'i' :: 't' :: 'y' :: r => some (.v (.num .ninf), r)
    | '"' :: r => (parseJStr r).map (fun p => (.v (.str p.1), p.2))
    | '[' :: r =>
      match parseCore fuel .arrItems (skipWs r) with
      | some (.items xs, rest) => some (.v (.arr xs), rest)
      | _ => none
    | '{' :: r =>
      match parseCore fuel .objItems (skipWs r) with
      | some (.fields fs, rest) => some (.v (.obj fs), rest)
      | _ => none
    | _ => (parseJNum s).map (fun p => (.v (.num (.rat p.1)), p.2))
  | fuel + 1, .arrItems, s =>
    match s with
    | ']' :: r => some (.items [], r)
    | _ =>
      match parseCore fuel .val s with
      | some (.v j, rest) =>
        (match skipWs rest with
         | ',' :: r2 =>
           (match skipWs r2 with
            | ']' :: _ => none
            | s2 =>
              match parseCore fuel .arrItems s2 with
              | some (.items xs, r3) => some (.items (j :: xs), r3)
              | _ => none)
         | ']' :: r2 => some (.items [j], r2)
         | _ => none)
      | _ => none
  | fuel + 1, .objItems, s =>
    match s with
    | '}' :: r => some (.fields [], r)
    | '"' :: r =>
      match parseJStr r with
      | none => none
      | some (k, rest) =>
        (match skipWs rest with
         | ':' :: r2 =>
           (match parseCore fuel .val (skipWs r2) with
            | some (.v j, r3) =>
              (match skipWs r3 with
               | ',' :: r4 =>
                 (match skipWs r4 with
                  | '"' :: _ =>
                    match parseCore fuel .objItems (skipWs r4) with
                    | some (.fields fs, r5) => some (.fields ((k, j) :: fs), r5)
                    | _ => none
                  | _ => none)
               | '}' :: r4 => some (.fields [(k, j)], r4)
               | _ => none)
            | _ => none)
         | _ => none)
    | _ => none

/-- Python `json.loads`: `none` models a raised `json.JSONDecodeError`. -/
def jsonLoads (s : PyStr) : Option Json :=
  match parseCore (s.length + 1) .val (skipWs s) with
  | some (.v j, rest) => if skipWs rest = [] then some j else none
  | _ => none

/-- Exception families raised by the modelled Python code. -/
inductive PyErr where
  | jsonDecode   -- json.JSONDecodeError
  | attrError    -- AttributeError (e.g. `.get`/`.strip` on a non-dict/non-str)
  | keyError     -- KeyError from `d[k]`
  | typeError    -- TypeError from indexing / len on wrong types
  | indexError   -- IndexError from list indexing
  | raisedNoChoices     -- `raise Exception("No choices in response: ...")`
  | raisedOpenRouter    -- `raise Exception("OpenRouter error: ...")`
  | raisedEmptyContent  -- `raise Exception("Empty content. ...")`
deriving DecidableEq

/-- One row of a range table: `{"min": ..., "max": ...}`. -/
structure RangeDef where
  min : ℚ
  max : ℚ
deriving DecidableEq

/-- The eight numeric filter fields. -/
inductive Field where
  | brightness | contrast | saturation | temperature | tint | grain | vignette | fade
deriving DecidableEq

/-- `RANGES` of `generate-filter.py` (the conservative table). -/
def RANGES_gen : Field → RangeDef
  | .brightness => ⟨0.85, 1.15⟩
  | .contrast => ⟨0.85, 1.2⟩
  | .saturation => ⟨0.7, 1.4⟩
  | .temperature => ⟨-20, 20⟩
  | .tint => ⟨-10, 10⟩
  | .grain => ⟨0, 0.15⟩
  | .vignette => ⟨0, 0.35⟩
  | .fade => ⟨0, 0.12⟩

/-- `RANGES` of `refine-filter.py` (the expanded table). -/
def RANGES_refine : Field → RangeDef
  | .brightness => ⟨0.6, 1.5⟩
  | .contrast => ⟨0.6, 1.5⟩
  | .saturation => ⟨0.3, 1.8⟩
  | .temperature => ⟨-40, 40⟩
  | .tint => ⟨-25, 25⟩
  | .grain => ⟨0, 0.4⟩
  | .vignette => ⟨0, 0.6⟩
  | .fade => ⟨0, 0.35⟩

/-- `RANGES` of `match-style.py` (textually identical to the refine table). -/
def RANGES_match : Field → RangeDef := RANGES_refine

/-- `clamp_value(value, range_def)`, identical in all three source files:

    if not isinstance(value, (int, float)) or value != value:  # NaN check
        return (range_def["min"] + range_def["max"]) / 2
    return max(range_def["min"], min(range_def["max"], value))

Python's `isinstance(value, (int, float))` is true for `bool` values
(`True == 1`, `False == 0`), and `value != value` holds exactly for `nan`.
`min(m, inf) = m`, `min(m, -inf) = -inf`, `max(m, -inf) = m`, so the
non-finite cases reduce as written below.  The result is always a finite
rational. -/
def clamp_value (value : Json) (range_def : RangeDef) : ℚ :=
  match value with
  | .num (.rat q) => max range_def.min (min range_def.max q)
  | .num .inf => max range_def.min range_def.max
  | .num .ninf => range_def.min
  | .bool b => max range_def.min (min range_def.max (if b then 1 else 0))
  | _ => (range_def.min + range_def.max) / 2

/-- Round-half-to-even of a rational to an integer, the rounding of Python's
built-in `round` (in exact arithmetic). -/
def rndHalfEven (x : ℚ) : ℤ :=
  let n := ⌊x⌋
  let r := x - n
  if r < 1 / 2 then n
  else if 1 / 2 < r then n + 1
  else if n % 2 = 0 then n else n + 1

/-- Python `round(x, d)` on exact rationals (`d = 0` models `round(x)`). -/
def pyRound (x : ℚ) (d : Nat) : ℚ := (rndHalfEven (x * 10 ^ d) : ℚ) / 10 ^ d

/-- The eight validated numeric fields returned by `parse_response` in
`refine-filter.py` / `match-style.py`. -/
structure FilterParams where
  brightness : ℚ
  contrast : ℚ
  saturation : ℚ
  temperature : ℚ
  tint : ℚ
  grain : ℚ
  vignette : ℚ
  fade : ℚ
deriving DecidableEq

/-- Return value of `parse_response` in `generate-filter.py`: the validated
fields plus the raw `"name"` entry (any JSON value, defaulted only when the
key is absent). -/
structure GenFilter where
  name : Json
  brightness : ℚ
  contrast : ℚ
  saturation : ℚ
  temperature : ℚ
  tint : ℚ
  grain : ℚ
  vignette : ℚ
  fade : ℚ

/-- Fence stripping shared by every `parse_response`:

    cleaned = response_text.strip()
    if cleaned.startswith("```"):
        cleaned = cleaned.replace("```json", "").replace("```", "").strip()
-/
def stripFences (response_text : PyStr) : PyStr :=
  if pyStartsWith (pyStr "```") (pyStrip response_text) then
    pyStrip (pyReplace (pyStr "```") []
      (pyReplace (pyStr "```json") [] (pyStrip response_text)))
  else pyStrip response_text

/-- Markdown code fence around a text, with language tag `tag` (the empty
tag or `json`): the string
&#96;&#96;&#96;`tag`⏎`t`⏎&#96;&#96;&#96;. -/
def fenceWrap (tag t : PyStr) : PyStr :=
  pyStr "```" ++ (tag ++ ('\n' :: (t ++ pyStr "\n```")))

/-- Dict-building step of `parse_response` in `refine-filter.py` (and,
textually identically, `match-style.py`): `parsed.get(...)` on a non-dict
raises `AttributeError`; on a dict every step is total. -/
def validateRefine (parsed : Json) : Except PyErr FilterParams :=
  match parsed with
  | .obj fs => .ok {
      brightness := pyRound (clamp_value (pyGetD fs (pyStr "brightness") (.num (.rat 1))) (RANGES_refine .brightness)) 2
      contrast := pyRound (clamp_value (pyGetD fs (pyStr "contrast") (.num (.rat 1))) (RANGES_refine .contrast)) 2
      saturation := pyRound (clamp_value (pyGetD fs (pyStr "saturation") (.num (.rat 1))) (RANGES_refine .saturation)) 2
      temperature := pyRound (clamp_value (pyGetD fs (pyStr "temperature") (.num (.rat 0))) (RANGES_refine .temperature)) 0
      tint := pyRound (clamp_value (pyGetD fs (pyStr "tint") (.num (.rat 0))) (RANGES_refine .tint)) 0
      grain := pyRound (clamp_value (pyGetD fs (pyStr "grain") (.num (.rat 0))) (RANGES_refine .grain)) 3
      vignette := pyRound (clamp_value (pyGetD fs (pyStr "vignette") (.num (.rat 0))) (RANGES_refine .vignette)) 2
      fade := pyRound (clamp_value (pyGetD fs (pyStr "fade") (.num (.rat 0))) (RANGES_refine .fade)) 3 }
  | _ => .error .attrError

/-- Dict-building step of `parse_response` in `generate-filter.py`. -/
def validateGen (parsed : Json) : Except PyErr GenFilter :=
  match parsed with
  | .obj fs => .ok {
      name := pyGetD fs (pyStr "name") (.str (pyStr "Botanical Custom"))
      brightness := pyRound (clamp_value (pyGetD fs (pyStr "brightness") (.num (.rat 1))) (RANGES_gen .brightness)) 2
      contrast := pyRound (clamp_value (pyGetD fs (pyStr "contrast") (.num (.rat 1))) (RANGES_gen .contrast)) 2
      saturation := pyRound (clamp_value (pyGetD fs (pyStr "saturation") (.num (.rat 1))) (RANGES_gen .saturation)) 2
      temperature := pyRound (clamp_value (pyGetD fs (pyStr "temperature") (.num (.rat 0))) (RANGES_gen .temperature)) 0
      tint := pyRound (clamp_value (pyGetD fs (pyStr "tint") (.num (.rat 0))) (RANGES_gen .tint)) 0
      grain := pyRound (clamp_value (pyGetD fs (pyStr "grain") (.num (.rat 0))) (RANGES_gen .grain)) 3
      vignette := pyRound (clamp_value (pyGetD fs (pyStr "vignette") (.num (.rat 0))) (RANGES_gen .vignette)) 2
      fade := pyRound (clamp_value (pyGetD fs (pyStr "fade") (.num (.rat 0))) (RANGES_gen .fade)) 3 }
  | _ => .error .attrError

/-- `parse_response` of `refine-filter.py`: strip fences, `json.loads`
(raising `JSONDecodeError` on failure), then build the validated dict. -/
def parse_response_refine (response_text : PyStr) : Except PyErr FilterParams :=
  match jsonLoads (stripFences response_text) with
  | none => .error .jsonDecode
  | some parsed => validateRefine parsed

/-- `parse_response` of `match-style.py`; its source is textually identical
to the one in `refine-filter.py` (same `RANGES` table, same body). -/
def parse_response_match : PyStr → Except PyErr FilterParams :=
  parse_response_refine

/-- `parse_response` of `generate-filter.py` (adds the `"name"` entry). -/
def parse_response_gen (response_text : PyStr) : Except PyErr GenFilter :=
  match jsonLoads (stripFences response_text) with
  | none => .error .jsonDecode
  | some parsed => validateGen parsed

/-- Values for which Python's `isinstance(value, (int, float))` holds:
numbers (including the non-finite floats) and booleans. -/
def isPyNumeric : Json → Bool
  | .num _ => true
  | .bool _ => true
  | _ => false

/-- JSON object corresponding to the dict returned by `parse_response` in
`refine-filter.py` / `match-style.py` (key order as in the source).
Python's `json.dumps` followed by `json.loads` is the identity on such a
dict (in the exact-arithmetic model), so this object is the re-parsed form
of the serialized output. -/
def refineToJson (p : FilterParams) : Json :=
  .obj [
    (pyStr "brightness", .num (.rat p.brightness)),
    (pyStr "contrast", .num (.rat p.contrast)),
    (pyStr "saturation", .num (.rat p.saturation)),
    (pyStr "temperature", .num (.rat p.temperature)),
    (pyStr "tint", .num (.rat p.tint)),
    (pyStr "grain", .num (.rat p.grain)),
    (pyStr "vignette", .num (.rat p.vignette)),
    (pyStr "fade", .num (.rat p.fade))]

/-- JSON object corresponding to the dict returned by `parse_response` in
`generate-filter.py`. -/
def genToJson (g : GenFilter) : Json :=
  .obj [
    (pyStr "name", g.name),
    (pyStr "brightness", .num (.rat g.brightness)),
    (pyStr "contrast", .num (.rat g.contrast)),
    (pyStr "saturation", .num (.rat g.saturation)),
    (pyStr "temperature", .num (.rat g.temperature)),
    (pyStr "tint", .num (.rat g.tint)),
    (pyStr "grain", .num (.rat g.grain)),
    (pyStr "vignette", .num (.rat g.vignette)),
    (pyStr "fade", .num (.rat g.fade))]

/-- Equality of extended numbers under Python `==` (`nan` is unequal to
everything, including itself). -/
def pnumEq : PNum → PNum → Bool
  | .rat p, .rat q => p == q
  | .inf, .inf => true
  | .ninf, .ninf => true
  | _, _ => false

/-- Python's numeric view of a `bool` (`True == 1`, `False == 0`). -/
def boolToPNum (b : Bool) : PNum := .rat (if b then 1 else 0)

/-- Fuelled Python `==` on JSON-derived values.  Booleans compare equal to
the numbers 0/1; `nan` is unequal to everything.  Python's dict `==` is
order-insensitive, modelled here as order-sensitive pairwise comparison —
the source only ever compares the scalar fields `opt["value"]` and
`r["answer"]`, where the two agree. -/
def pyEqF : Nat → Json → Json → Bool
  | 0, _, _ => false
  | _ + 1, .null, .null => true
  | _ + 1, .bool a, .bool b => a == b
  | _ + 1, .bool a, .num y => pnumEq (boolToPNum a) y
  | _ + 1, .num x, .bool b => pnumEq x (boolToPNum b)
  | _ + 1, .num x, .num y => pnumEq x y
  | _ + 1, .str a, .str b => a == b
  | _ + 1, .arr [], .arr [] => true
  | f + 1, .arr (x :: xs), .arr (y :: ys) =>
    pyEqF f x y && pyEqF f (.arr xs) (.arr ys)
  | _ + 1, .obj [], .obj [] => true
  | f + 1, .obj ((k, v) :: fs), .obj ((l, w) :: gs) =>
    k == l && pyEqF f v w && pyEqF f (.obj fs) (.obj gs)
  | _ + 1, _, _ => false

/-- Python `==` on JSON-derived values.  The fuel of `pyEqF` is consumed
once per nesting level and per list element; `2^64` exceeds what any
physically realizable value (or Python's own recursion limit) can consume,
so the cut-off is never reached. -/
def pyEq (a b : Json) : Bool := pyEqF 18446744073709551616 a b

def natDigits (n : Nat) : PyStr := (Nat.repr n).data

def intDigits (i : Int) : PyStr :=
  if i < 0 then '-' :: natDigits i.natAbs else natDigits i.natAbs

/-- Python `str()` of a rational.  Integral values print like Python ints;
non-integral values (never interpolated on any path a claim touches) are
printed as `num/den`, not in Python's float notation. -/
def ratDigits (q : ℚ) : PyStr :=
  if q.den = 1 then intDigits q.num
  else intDigits q.num ++ ('/' :: natDigits q.den)

/-- Python `str()` of a JSON-derived value, as interpolated by f-strings.
Containers (never interpolated on any path a claim touches) are abridged. -/
def pyStrOf : Json → PyStr
  | .str s => s
  | .bool true => pyStr "True"
  | .bool false => pyStr "False"
  | .null => pyStr "None"
  | .num (.rat q) => ratDigits q
  | .num .nan => pyStr "nan"
  | .num .inf => pyStr "inf"
  | .num .ninf => pyStr "-inf"
  | .arr _ => pyStr "<list>"
  | .obj _ => pyStr "<dict>"

/-- Python subscript `d[k]` with a string key. -/
def pyIndex (j : Json) (k : PyStr) : Except PyErr Json :=
  match j with
  | .obj fs =>
    match objFind fs k with
    | some v => .ok v
    | none => .error .keyError
  | _ => .error .typeError

/-- Python subscript `xs[i]` with an integer index (negative indices count
from the end). -/
def pyIndexInt (j : Json) (i : Int) : Except PyErr Json :=
  match j with
  | .arr xs =>
    let idx : Int := if i < 0 then (xs.length : Int) + i else i
    if idx < 0 then .error .indexError
    else
      match xs.get? idx.toNat with
      | some v => .ok v
      | none => .error .indexError
  | .str s =>
    let idx : Int := if i < 0 then (s.length : Int) + i else i
    if idx < 0 then .error .indexError
    else
      match s.get? idx.toNat with
      | some c => .ok (.str [c])
      | none => .error .indexError
  | .obj _ => .error .keyError
  | _ => .error .typeError

/-- Python iteration over a JSON-derived value (`for opt in ...`): lists
yield their items, strings their characters, dicts their keys. -/
def getIterList (j : Json) : Except PyErr (List Json) :=
  match j with
  | .arr xs => .ok xs
  | .str s => .ok (s.map (fun c => .str [c]))
  | .obj fs => .ok (fs.map (fun p => .str p.1))
  | _ => .error .typeError

/-- The generator `(opt[field] for opt in options if opt["value"] == ans)`,
run to its first element (`none` when exhausted). -/
def findOptField (options : List Json) (ans : Json) (field : PyStr) :
    Except PyErr (Option Json) :=
  match options with
  | [] => .ok none
  | opt :: rest => do
    let v ← pyIndex opt (pyStr "value")
    if pyEq v ans then
      let l ← pyIndex opt field
      pure (some l)
    else
      findOptField rest ans field

/-- One line of `answer_summary` in `build_prompt` of `generate-filter.py`:

    Q(i+1): (text) → (label) ((description)), interpolating the question text, the matching label (default: the raw answer) and the matching description (default: empty).
-/
def quizLine (i : Nat) (r q : Json) : Except PyErr PyStr := do
  let text ← pyIndex q (pyStr "text")
  let options ← pyIndex q (pyStr "options")
  let optList ← getIterList options
  let ans ← pyIndex r (pyStr "answer")
  let label ← do
    match ← findOptField optList ans (pyStr "label") with
    | some l => pure l
    | none => pure ans
  let desc ← do
    match ← findOptField optList ans (pyStr "description") with
    | some d => pure d
    | none => pure (Json.str [])
  pure (pyStr "Q" ++ natDigits (i + 1) ++ pyStr ": \"" ++ pyStrOf text ++
    pyStr "\" → \"" ++ pyStrOf label ++ pyStr "\" (" ++ pyStrOf desc ++ pyStr ")")

/-- Text of the `generate-filter.py` prompt template before
`{answer_summary}` and after it.  The text is the f-string of the source
with its doubled braces rendered as single braces; the part after the
summary is split into chunks (each chunk ending at a line break) so that
proofs about the prompt can examine one chunk at a time. -/
def genPromptPre : PyStr := pyStr "You are an expert plant photography specialist. Based on the user's answers about their aesthetic preferences, create a great looking photo filter.\n\nUSER'S ANSWERS:\n"

def genPost1 : PyStr := pyStr "\n\n\nPARAMETERS (keep subtle, within these ranges):\n- brightness: 0.7 to 1.3 (1.0 = no change)\n- contrast: 0.7 to 1.3 (1.0 = no change)\n- saturation: 0.7 to 1.4 (1.0 = no change)\n- temperature: -30 to +30 (0 = neutral, negative = cooler, positive = warmer)\n- tint: -20 to +20 (0 = neutral)\n- grain: 0 to 0.25 (0 = none)\n- vignette: 0 to 0.35 (0 = none)\n- fade: 0 to 0.22 (0 = none)\n\n\n"

def genPost2 : PyStr := pyStr "Brightness & Contrast: The foundation. Brightness sets the exposure; Contrast adds \"pop\" and depth.\n\nSaturation: Controls color intensity. Pro tip: Lower saturation often looks more expensive/cinematic.\n\nTemperature & Tint: The \"White Balance.\" Temperature moves between Blue (Cool) and Yellow (Warm). Tint moves between Green and Magenta.\n\n"

def genPost3 : PyStr := pyStr "Fade, Grain & Vignette: The \"Texture.\" These mimic old camera limitations to add character.\n\nRecipe 1: The \"Moody Cinematic\" Look\nThis style is popular for street photography, portraits, and travel. It focuses on deep shadows and slightly desaturated colors to draw focus to the subject.\n\nThe Vibe: Emotional, dramatic, serious.\n\nThe Settings:\n\nBrightness: -10 to -20 (Slightly underexpose to preserve highlights).\n"

def genPost4 : PyStr := pyStr "Contrast: +15 to +25 (Deepen the shadows).\nSaturation: -10 to -20 (Desaturate to remove distracting colors).\nTemperature: -5 to -10 (Cooler tones look more modern/cinematic).\nTint: +5 (Adding a slight magenta tint can help skin tones in cool light).\nGrain: 0 (Keep it clean).\nVignette: +15 (Draws the eye to the center).\nFade: +10 (Lift the blacks slightly for a \"matte\" finish).\n\nRecipe 2: The \"Vintage Film\" Look\n"

def genPost5 : PyStr := pyStr "This mimics the imperfections of analog film. It's great for casual photos, memories, and outdoor shots.\n\nThe Vibe: Nostalgic, warm, soft.\n\nThe Settings:\n\nBrightness: +10 (Film often looks slightly overexposed).\nContrast: -10 to -15 (Flattens the image for a softer look).\nSaturation: -5 (Film colors are rarely neon-bright).\nTemperature: +15 to +25 (Warm/Yellow is key for that \"golden hour\" feel).\n"

def genPost6 : PyStr := pyStr "Tint: -5 (A slight shift toward green mimics Fujifilm stocks).\nGrain: +25 to +40 (The most important setting here; adds texture).\nVignette: +10 (Subtle lens darkening).\nFade: +30 (Washes out the shadows significantly).\n\nRecipe 3: The \"Modern Clean\" Look (Influencer Style)\nThis is the standard \"bright and airy\" look used for food, product, and lifestyle photography. It makes images look high-definition and happy.\n\n"

def genPost7 : PyStr := pyStr "The Vibe: Sharp, energetic, true-to-life.\n\nThe Settings:\n\nBrightness: +20 to +30 (Brighten it up significantly).\nContrast: +10 (Adds definition back after brightening).\nSaturation: +10 to +15 (Makes colors pop, but don't overdo it).\nTemperature: 0 (Or slightly +5 if the original is too blue).\nTint: 0 (Keep colors accurate).\nGrain: 0 (Digital clean look).\nVignette: 0 (No dark corners).\n"

def genPost8 : PyStr := pyStr "Fade: 0 (Keep blacks pure black for sharpness).\n\nIn addition, Generate a gentle 2-3 word name.\n\nRespond ONLY with valid JSON:\n\x7b\n  \"name\": \"Filter Name\",\n  \"brightness\": 1.0,\n  \"contrast\": 1.0,\n  \"saturation\": 1.0,\n  \"temperature\": 0,\n  \"tint\": 0,\n  \"grain\": 0,\n  \"vignette\": 0,\n  \"fade\": 0\n\x7d"

def genPromptPost : PyStr := genPost1 ++ (genPost2 ++ (genPost3 ++ (genPost4 ++ (genPost5 ++ (genPost6 ++ (genPost7 ++ (genPost8)))))))

/-- `build_prompt` of `generate-filter.py`. -/
def build_prompt (quiz_results questions : List Json) : Except PyErr PyStr := do
  let lines ← (List.zip quiz_results questions).enum.mapM
    (fun p => quizLine p.1 p.2.1 p.2.2)
  let answer_summary := List.intercalate (pyStr "\n") lines
  pure (genPromptPre ++ answer_summary ++ genPromptPost)

/-- The concrete `quizResults` input of the C7 test vector. -/
def c7QuizResults : List Json := [.obj [(pyStr "answer", .str (pyStr "b"))]]

/-- The concrete `questions` input of the C7 test vector. -/
def c7Questions : List Json := [.obj [
  (pyStr "text", .str (pyStr "Mood?")),
  (pyStr "options", .arr [
    .obj [(pyStr "value", .str (pyStr "a")), (pyStr "label", .str (pyStr "Calm"))],
    .obj [(pyStr "value", .str (pyStr "b")), (pyStr "label", .str (pyStr "Bold")),
      (pyStr "description", .str (pyStr "punchy"))]])]]

/-- The single `answer_summary` line produced on the C7 test vector. -/
def c7Line : PyStr := pyStr "Q1: \"Mood?\" → \"Bold\" (punchy)"

/-- The full prompt produced on the C7 test vector. -/
def c7Prompt : PyStr := genPromptPre ++ c7Line ++ genPromptPost

/-- `build_refine_prompt` of `refine-filter.py`: the f-string with the
`current_params.get` and `instruction` interpolations; `.get` on a
non-dict raises `AttributeError`. -/
def build_refine_prompt (current_params instruction : Json) : Except PyErr PyStr :=
  match current_params with
  | .obj fs =>
    .ok (pyStr "You are a photo filter expert. The user has an existing filter and wants to ADJUST it based on their feedback.\n\nCURRENT FILTER PARAMETERS (these are the starting point):\n- brightness: " ++
      pyStrOf (pyGetD fs (pyStr "brightness") (.num (.rat 1))) ++
      pyStr "\n- contrast: " ++
      pyStrOf (pyGetD fs (pyStr "contrast") (.num (.rat 1))) ++
      pyStr "\n- saturation: " ++
      pyStrOf (pyGetD fs (pyStr "saturation") (.num (.rat 1))) ++
      pyStr "\n- temperature: " ++
      pyStrOf (pyGetD fs (pyStr "temperature") (.num (.rat 0))) ++
      pyStr "\n- tint: " ++
      pyStrOf (pyGetD fs (pyStr "tint") (.num (.rat 0))) ++
      pyStr "\n- grain: " ++
      pyStrOf (pyGetD fs (pyStr "grain") (.num (.rat 0))) ++
      pyStr "\n- vignette: " ++
      pyStrOf (pyGetD fs (pyStr "vignette") (.num (.rat 0))) ++
      pyStr "\n- fade: " ++
      pyStrOf (pyGetD fs (pyStr "fade") (.num (.rat 0))) ++
      pyStr "\n\nUSER'S ADJUSTMENT REQUEST: \"" ++
      pyStrOf instruction ++
      pyStr "\"\n\nIMPORTANT: Make INCREMENTAL adjustments to the CURRENT values above. Do NOT start from scratch.\n- If they say \"warmer\", ADD to the current temperature\n- If they say \"more contrast\", INCREASE from current\n- Only change parameters relevant to their request\n- Keep other parameters UNCHANGED from their current values\n\nParameter ranges (use full range when appropriate):\n- brightness: 0.6 to 1.5\n- contrast: 0.6 to 1.5  \n- saturation: 0.3 to 1.8\n- temperature: -40 to +40\n- tint: -25 to +25\n- grain: 0 to 0.4\n- vignette: 0 to 0.6\n- fade: 0 to 0.35\n\nRespond ONLY with valid JSON:\n\x7b\n  \"brightness\": " ++
      pyStrOf (pyGetD fs (pyStr "brightness") (.num (.rat 1))) ++
      pyStr ",\n  \"contrast\": " ++
      pyStrOf (pyGetD fs (pyStr "contrast") (.num (.rat 1))) ++
      pyStr ",\n  \"saturation\": " ++
      pyStrOf (pyGetD fs (pyStr "saturation") (.num (.rat 1))) ++
      pyStr ",\n  \"temperature\": " ++
      pyStrOf (pyGetD fs (pyStr "temperature") (.num (.rat 0))) ++
      pyStr ",\n  \"tint\": " ++
      pyStrOf (pyGetD fs (pyStr "tint") (.num (.rat 0))) ++
      pyStr ",\n  \"grain\": " ++
      pyStrOf (pyGetD fs (pyStr "grain") (.num (.rat 0))) ++
      pyStr ",\n  \"vignette\": " ++
      pyStrOf (pyGetD fs (pyStr "vignette") (.num (.rat 0))) ++
      pyStr ",\n  \"fade\": " ++
      pyStrOf (pyGetD fs (pyStr "fade") (.num (.rat 0))) ++
      pyStr "\n\x7d")
  | _ => .error .attrError

/-- `build_vision_prompt` of `match-style.py`. -/
def build_vision_prompt (current_params : Json) : Except PyErr PyStr :=
  match current_params with
  | .obj fs =>
    .ok (pyStr "Analyze this reference image's color grading, mood, and visual style. Then ADJUST the user's current filter to incorporate elements of this style.\n\nCURRENT FILTER PARAMETERS (starting point):\n- brightness: " ++
      pyStrOf (pyGetD fs (pyStr "brightness") (.num (.rat 1))) ++
      pyStr "\n- contrast: " ++
      pyStrOf (pyGetD fs (pyStr "contrast") (.num (.rat 1))) ++
      pyStr "\n- saturation: " ++
      pyStrOf (pyGetD fs (pyStr "saturation") (.num (.rat 1))) ++
      pyStr "\n- temperature: " ++
      pyStrOf (pyGetD fs (pyStr "temperature") (.num (.rat 0))) ++
      pyStr "\n- tint: " ++
      pyStrOf (pyGetD fs (pyStr "tint") (.num (.rat 0))) ++
      pyStr "\n- grain: " ++
      pyStrOf (pyGetD fs (pyStr "grain") (.num (.rat 0))) ++
      pyStr "\n- vignette: " ++
      pyStrOf (pyGetD fs (pyStr "vignette") (.num (.rat 0))) ++
      pyStr "\n- fade: " ++
      pyStrOf (pyGetD fs (pyStr "fade") (.num (.rat 0))) ++
      pyStr "\n\nAnalyze the reference image for:\n- Overall brightness and exposure\n- Color temperature (warm/cool)\n- Saturation levels\n- Contrast and tonal range\n- Any vintage/film effects (grain, fade)\n- Vignetting\n\nIMPORTANT: Make INCREMENTAL adjustments to blend the reference image's style INTO the current filter.\n- Don't completely replace the current values\n- Shift parameters TOWARD the reference style by 30-60% of the difference\n- Preserve some of the original filter's character\n\nParameter ranges (use full range when appropriate):\n- brightness: 0.6 to 1.5\n- contrast: 0.6 to 1.5\n- saturation: 0.3 to 1.8\n- temperature: -40 to +40\n- tint: -25 to +25\n- grain: 0 to 0.4\n- vignette: 0 to 0.6\n- fade: 0 to 0.35\n\nRespond ONLY with valid JSON:\n\x7b\n  \"brightness\": " ++
      pyStrOf (pyGetD fs (pyStr "brightness") (.num (.rat 1))) ++
      pyStr ",\n  \"contrast\": " ++
      pyStrOf (pyGetD fs (pyStr "contrast") (.num (.rat 1))) ++
      pyStr ",\n  \"saturation\": " ++
      pyStrOf (pyGetD fs (pyStr "saturation") (.num (.rat 1))) ++
      pyStr ",\n  \"temperature\": " ++
      pyStrOf (pyGetD fs (pyStr "temperature") (.num (.rat 0))) ++
      pyStr ",\n  \"tint\": " ++
      pyStrOf (pyGetD fs (pyStr "tint") (.num (.rat 0))) ++
      pyStr ",\n  \"grain\": " ++
      pyStrOf (pyGetD fs (pyStr "grain") (.num (.rat 0))) ++
      pyStr ",\n  \"vignette\": " ++
      pyStrOf (pyGetD fs (pyStr "vignette") (.num (.rat 0))) ++
      pyStr ",\n  \"fade\": " ++
      pyStrOf (pyGetD fs (pyStr "fade") (.num (.rat 0))) ++
      pyStr "\n\x7d")
  | _ => .error .attrError

/-- Python `dict.get(k, d)` on an arbitrary value (`AttributeError` when
the receiver is not a dict). -/
def pyGet (j : Json) (k : PyStr) (d : Json) : Except PyErr Json :=
  match j with
  | .obj fs => .ok (pyGetD fs k d)
  | _ => .error .attrError

/-- Python `k in container` for a string key (`TypeError` on numbers,
booleans and `None`). -/
def pyContains (j : Json) (k : PyStr) : Except PyErr Bool :=
  match j with
  | .obj fs => .ok (pyHasKey fs k)
  | .arr xs => .ok (xs.any (fun v => pyEq v (.str k)))
  | .str s => .ok (decide (k <:+: s))
  | _ => .error .typeError

/-- Python `len` (`TypeError` on unsized values). -/
def pyLen : Json → Except PyErr Nat
  | .str s => .ok s.length
  | .arr xs => .ok xs.length
  | .obj fs => .ok fs.length
  | _ => .error .typeError

/-- Fallback chain of `call_openrouter` in `refine-filter.py`
(lines 132-144), starting from the already-fetched `content`: try the last
`reasoning_details` entry, then the `reasoning` field, and raise the
empty-content error when everything is falsy. -/
def reasoningFallback (message content1 : Json) : Except PyErr Json := do
  let content2 ←
    if pyFalsy content1 then do
      let hasRD ← pyContains message (pyStr "reasoning_details")
      if hasRD then do
        let reasoning ← pyGet message (pyStr "reasoning_details") (.arr [])
        if pyFalsy reasoning then pure content1
        else do
          let n2 ← pyLen reasoning
          if 0 < n2 then do
            let lastEntry ← pyIndexInt reasoning (-1)
            pyGet lastEntry (pyStr "content") (.str [])
          else pure content1
      else pure content1
    else pure content1
  let content3 ←
    if pyFalsy content2 then do
      let hasR ← pyContains message (pyStr "reasoning")
      if hasR then pyGet message (pyStr "reasoning") (.str [])
      else pure content2
    else pure content2
  if pyFalsy content3 then .error .raisedEmptyContent
  else pure content3

/-- Post-parse logic of `call_openrouter` in `refine-filter.py`
(lines 123-144): the `error`/`choices` checks, the `content` extraction
and the `reasoning_details`/`reasoning` fallbacks for reasoning models. -/
def extractRefine (result : Json) : Except PyErr Json := do
  let hasErr ← pyContains result (pyStr "error")
  if hasErr then .error .raisedOpenRouter
  else do
    let hasChoices ← pyContains result (pyStr "choices")
    if !hasChoices then .error .raisedNoChoices
    else do
      let choices ← pyIndex result (pyStr "choices")
      let n ← pyLen choices
      if n = 0 then .error .raisedNoChoices
      else do
        let choices0 ← pyIndexInt choices 0
        let message ← pyIndex choices0 (pyStr "message")
        let content1 ← pyGet message (pyStr "content") (.str [])
        reasoningFallback message content1

/-- Post-parse logic of `call_openrouter_vision` in `match-style.py`
(lines 136-146): direct indexing, no reasoning fallbacks. -/
def extractMatch (result : Json) : Except PyErr Json := do
  let hasErr ← pyContains result (pyStr "error")
  if hasErr then .error .raisedOpenRouter
  else do
    let hasChoices ← pyContains result (pyStr "choices")
    if !hasChoices then .error .raisedNoChoices
    else do
      let choices ← pyIndex result (pyStr "choices")
      let n ← pyLen choices
      if n = 0 then .error .raisedNoChoices
      else do
        let choices0 ← pyIndexInt choices 0
        let message ← pyIndex choices0 (pyStr "message")
        let content ← pyIndex message (pyStr "content")
        if pyFalsy content then .error .raisedEmptyContent
        else pure content

/-- Kind of error reported in the JSON body of a non-success response, by
message family (the `{"success": false, "error": msg}` bodies of the
source, keyed by which `send_error_response` call produced them). -/
inductive ErrKind where
  | apiKeyMissing   -- "API key not configured" / "OPENROUTER_API_KEY not set ..."
  | apiKeyInvalid   -- "API key appears invalid (length: ...)"
  | missingFields   -- "Missing quizResults or questions" / "Missing currentParams or instruction" / "Missing image"
  | invalidJson     -- "Invalid JSON: ..." (except json.JSONDecodeError)
  | serverError     -- "Server error: ..." (except Exception)
  | networkError    -- "Network error: ..." (except urllib.error.URLError)
  | providerError   -- provider HTTP error propagated with its status code
deriving DecidableEq

/-- Body of the one HTTP response a `do_POST` emits. -/
inductive RespBody where
  | okParams (p : FilterParams)   -- {"success": true, "params": ...}
  | okFilter (g : GenFilter)      -- {"success": true, "filter": ...}
  | err (k : ErrKind)             -- {"success": false, "error": ...}

/-- Abstract result of one `do_POST` call: HTTP status, response body, and
whether the outbound provider call was reached. -/
structure PostResult where
  status : Nat
  body : RespBody
  madeCall : Bool

/-- Outcome of the outbound `urllib.request.urlopen` call
(`refine-filter.py` / `match-style.py`). -/
inductive UrlOutcome where
  | httpError (code : Nat) (errBody : PyStr)  -- urllib.error.HTTPError
  | urlError                                  -- urllib.error.URLError (network failure)
  | reply (body : PyStr)                      -- HTTP 200 with this body

/-- Outcome of the outbound `httpx` call (`generate-filter.py`): a response
with some status code, or a raised httpx exception (caught only by the
generic `except Exception`). -/
inductive HttpxOutcome where
  | resp (status : Nat) (body : PyStr)
  | netErr

/-- Status and body produced for a raised exception by the `except` chain
shared by all three handlers: `json.JSONDecodeError` becomes HTTP 400 with
the "Invalid JSON: ..." message, every other exception becomes HTTP 500
with "Server error: ...". -/
def dispatchErrPair (e : PyErr) : Nat × RespBody :=
  match e with
  | .jsonDecode => (400, .err .invalidJson)
  | _ => (500, .err .serverError)

def dispatchPyErr (e : PyErr) (call : Bool) : PostResult :=
  ⟨(dispatchErrPair e).1, (dispatchErrPair e).2, call⟩

/-- The part of `refine-filter.py`'s `do_POST` from the outbound call on:
`call_openrouter` (urlopen, body parse, content extraction) and
`parse_response`, with the `except` chain dispatching any raise.  Every
path here runs after the outbound call was made. -/
def refine_net_stage (net : UrlOutcome) : Nat × RespBody :=
  match net with
  | .httpError code _eb => (code, .err .providerError)
  | .urlError => (500, .err .networkError)
  | .reply rb =>
    match jsonLoads rb with
    | none => dispatchErrPair .jsonDecode
    | some result =>
      match extractRefine result with
      | .error e => dispatchErrPair e
      | .ok content =>
        match content with
        | .str s =>
          match parse_response_refine s with
          | .ok p => (200, .okParams p)
          | .error e => dispatchErrPair e
        | _ => dispatchErrPair .attrError

/-- `handler.do_POST` of `refine-filter.py`, as a function of the API key
in the environment, the raw request body, and the outcome of the outbound
call. -/
def refine_do_POST (apiKey : Option PyStr) (body : PyStr) (net : UrlOutcome) :
    PostResult :=
  match apiKey with
  | none => ⟨500, .err .apiKeyMissing, false⟩
  | some k =>
    if k.isEmpty then ⟨500, .err .apiKeyMissing, false⟩
    else if k.length < 10 then ⟨500, .err .apiKeyInvalid, false⟩
    else
      match jsonLoads body with
      | none => ⟨400, .err .invalidJson, false⟩
      | some d =>
        match d with
        | .obj fs =>
          let current_params := pyGetD fs (pyStr "currentParams") (.obj [])
          let instruction := pyGetD fs (pyStr "instruction") (.str [])
          if pyFalsy current_params || pyFalsy instruction then
            ⟨400, .err .missingFields, false⟩
          else
            match build_refine_prompt current_params instruction with
            | .error e => dispatchPyErr e false
            | .ok _prompt =>
              ⟨(refine_net_stage net).1, (refine_net_stage net).2, true⟩
        | _ => dispatchPyErr .attrError false

/-- Default `currentParams` substituted by `match-style.py` when the
request body has none. -/
def defaultParamsJson : Json := .obj [
  (pyStr "brightness", .num (.rat 1)),
  (pyStr "contrast", .num (.rat 1)),
  (pyStr "saturation", .num (.rat 1)),
  (pyStr "temperature", .num (.rat 0)),
  (pyStr "tint", .num (.rat 0)),
  (pyStr "grain", .num (.rat 0)),
  (pyStr "vignette", .num (.rat 0)),
  (pyStr "fade", .num (.rat 0))]

/-- The part of `match-style.py`'s `do_POST` from the outbound call on. -/
def match_net_stage (net : UrlOutcome) : Nat × RespBody :=
  match net with
  | .httpError code _eb => (code, .err .providerError)
  | .urlError => (500, .err .networkError)
  | .reply rb =>
    match jsonLoads rb with
    | none => dispatchErrPair .jsonDecode
    | some result =>
      match extractMatch result with
      | .error e => dispatchErrPair e
      | .ok content =>
        match content with
        | .str s =>
          match parse_response_match s with
          | .ok p => (200, .okParams p)
          | .error e => dispatchErrPair e
        | _ => dispatchErrPair .attrError

/-- `handler.do_POST` of `match-style.py`. -/
def match_do_POST (apiKey : Option PyStr) (body : PyStr) (net : UrlOutcome) :
    PostResult :=
  match apiKey with
  | none => ⟨500, .err .apiKeyMissing, false⟩
  | some k =>
    if k.isEmpty then ⟨500, .err .apiKeyMissing, false⟩
    else if k.length < 10 then ⟨500, .err .apiKeyInvalid, false⟩
    else
      match jsonLoads body with
      | none => ⟨400, .err .invalidJson, false⟩
      | some d =>
        match d with
        | .obj fs =>
          let current_params := pyGetD fs (pyStr "currentParams") (.obj [])
          let base64_image := pyGetD fs (pyStr "image") (.str [])
          if pyFalsy base64_image then
            ⟨400, .err .missingFields, false⟩
          else
            let cp := if pyFalsy current_params then defaultParamsJson
              else current_params
            match build_vision_prompt cp with
            | .error e => dispatchPyErr e false
            | .ok _prompt =>
              ⟨(match_net_stage net).1, (match_net_stage net).2, true⟩
        | _ => dispatchPyErr .attrError false

/-- `build_prompt(quiz_results, questions)` as called from `do_POST`:
Python's `zip` first requires both arguments to be iterable. -/
def genBuildFromJson (quiz_results questions : Json) : Except PyErr PyStr := do
  let qr ← getIterList quiz_results
  let qs ← getIterList questions
  build_prompt qr qs

/-- The provider-error message selection of `generate-filter.py`
(`error_data.get("error", {}).get("message", "API request failed")`). -/
def genErrMessage (ed : Json) : Except PyErr Json := do
  let e1 ← pyGet ed (pyStr "error") (.obj [])
  pyGet e1 (pyStr "message") (.str (pyStr "API request failed"))

/-- `result["choices"][0]["message"]["content"]` of `generate-filter.py`. -/
def genExtractContent (result : Json) : Except PyErr Json := do
  let cs ← pyIndex result (pyStr "choices")
  let c0 ← pyIndexInt cs 0
  let m ← pyIndex c0 (pyStr "message")
  pyIndex m (pyStr "content")

/-- The part of `generate-filter.py`'s `do_POST` from the outbound `httpx`
call on.  A raised httpx exception is caught only by the generic
`except Exception` (HTTP 500, "Server error"), unlike the urllib
endpoints, which report a distinct network error. -/
def generate_net_stage (net : HttpxOutcome) : Nat × RespBody :=
  match net with
  | .netErr => (500, .err .serverError)
  | .resp status rb =>
    if status ≠ 200 then
      match jsonLoads rb with
      | none => dispatchErrPair .jsonDecode
      | some ed =>
        match genErrMessage ed with
        | .error e => dispatchErrPair e
        | .ok _msg => (status, .err .providerError)
    else
      match jsonLoads rb with
      | none => dispatchErrPair .jsonDecode
      | some result =>
        match genExtractContent result with
        | .error e => dispatchErrPair e
        | .ok content =>
          match content with
          | .str s =>
            match parse_response_gen s with
            | .ok g => (200, .okFilter g)
            | .error e => dispatchErrPair e
          | _ => dispatchErrPair .attrError

/-- `handler.do_POST` of `generate-filter.py`.  Note: the only API-key
check is `if not api_key` — there is no minimum-length check in this
file, unlike the other two endpoints. -/
def generate_do_POST (apiKey : Option PyStr) (body : PyStr)
    (net : HttpxOutcome) : PostResult :=
  match apiKey with
  | none => ⟨500, .err .apiKeyMissing, false⟩
  | some k =>
    if k.isEmpty then ⟨500, .err .apiKeyMissing, false⟩
    else
      match jsonLoads body with
      | none => ⟨400, .err .invalidJson, false⟩
      | some d =>
        match d with
        | .obj fs =>
          let quiz_results := pyGetD fs (pyStr "quizResults") (.arr [])
          let questions := pyGetD fs (pyStr "questions") (.arr [])
          if pyFalsy quiz_results || pyFalsy questions then
            ⟨400, .err .missingFields, false⟩
          else
            match genBuildFromJson quiz_results questions with
            | .error e => dispatchPyErr e false
            | .ok _prompt =>
              ⟨(generate_net_stage net).1, (generate_net_stage net).2, true⟩
        | _ => dispatchPyErr .attrError false

/-- The provider result JSON used by C10: one choice whose message is the
given field list. -/
def c10Result (msgFields : List (PyStr × Json)) : Json :=
  .obj [(pyStr "choices", .arr [.obj [(pyStr "message", .obj msgFields)]])]

/-- A well-formed API key (length 15 ≥ 10). -/
def cKey : PyStr := pyStr "sk-or-v1-abcdef"

/-- A valid `refine-filter` request body. -/
def cRefineBody : PyStr :=
  pyStr "\x7b\"currentParams\": \x7b\"brightness\": 1\x7d, \"instruction\": \"warmer\"\x7d"

/-- A valid `generate-filter` request body. -/
def cGenBody : PyStr :=
  pyStr "\x7b\"quizResults\": [\x7b\"answer\": \"b\"\x7d], \"questions\": [\x7b\"text\": \"Mood?\", \"options\": [\x7b\"value\": \"b\", \"label\": \"Bold\", \"description\": \"punchy\"\x7d]\x7d]\x7d"

/-- A provider reply whose message content is not valid JSON. -/
def cBadReply : PyStr :=
  pyStr "\x7b\"choices\": [\x7b\"message\": \x7b\"content\": \"not json at all\"\x7d\x7d]\x7d"

/-- A provider reply whose message content is the valid JSON `{}`. -/
def cGoodReply : PyStr :=
  pyStr "\x7b\"choices\": [\x7b\"message\": \x7b\"content\": \"\x7b\x7d\"\x7d\x7d]\x7d"

/-- The message-field list of the C10 witness: empty content, one
reasoning-details entry carrying the text `hello`. -/
def c10MsgA : List (PyStr × Json) :=
  [(pyStr "content", .str []),
   (pyStr "reasoning_details", .arr [.obj [(pyStr "content", .str (pyStr "hello"))]])]

lemma clamp_value_bounds (r : RangeDef) (h : r.min ≤ r.max) (v : Json) :
    r.min ≤ clamp_value v r ∧ clamp_value v r ≤ r.max := by
  have hmid : r.min ≤ (r.min + r.max) / 2 ∧ (r.min + r.max) / 2 ≤ r.max :=
    ⟨by linarith, by linarith⟩
  cases v with
  | null => exact hmid
  | str s => exact hmid
  | arr xs => exact hmid
  | obj fs => exact hmid
  | bool b =>
    exact ⟨le_max_left _ _, max_le h (min_le_left _ _)⟩
  | num x =>
    cases x with
    | rat q => exact ⟨le_max_left _ _, max_le h (min_le_left _ _)⟩
    | nan => exact hmid
    | inf => exact ⟨le_max_left _ _, max_le h le_rfl⟩
    | ninf => exact ⟨le_rfl, h⟩

lemma clamp_value_midpoint (r : RangeDef) (v : Json)
    (hv : isPyNumeric v = false ∨ v = .num .nan) :
    clamp_value v r = (r.min + r.max) / 2 := by
  cases v with
  | null => rfl
  | str s => rfl
  | arr xs => rfl
  | obj fs => rfl
  | bool b =>
    rcases hv with h | h
    · simp [isPyNumeric] at h
    · exact Json.noConfusion h
  | num x =>
    cases x with
    | nan => rfl
    | rat q =>
      rcases hv with h | h
      · simp [isPyNumeric] at h
      · injection h with h2; exact PNum.noConfusion h2
    | inf =>
      rcases hv with h | h
      · simp [isPyNumeric] at h
      · injection h with h2; exact PNum.noConfusion h2
    | ninf =>
      rcases hv with h | h
      · simp [isPyNumeric] at h
      · injection h with h2; exact PNum.noConfusion h2

example : jsonLoads (pyStr "[1, 2, 3]") =
    some (.arr [.num (.rat 1), .num (.rat 2), .num (.rat 3)]) := rfl
example : jsonLoads (pyStr " \x7b\"a\": -1.5e1, \"a\": true, \"b\": null\x7d ") =
    some (.obj [(pyStr "a", .num (.rat (-15))), (pyStr "a", .bool true),
      (pyStr "b", .null)]) := rfl
example : jsonLoads (pyStr "not json at all") = none := rfl
example : jsonLoads (pyStr "[1,]") = none := rfl
example : jsonLoads (pyStr "\x7b\"s\": \"a\\nb\"\x7d") =
    some (.obj [(pyStr "s", .str (pyStr "a\nb"))]) := rfl
example : jsonLoads (pyStr "NaN") = some (.num .nan) := rfl
example : parse_response_refine (pyStr "```json\n\x7b\"brightness\": 9.0\x7d\n```") =
    .ok ⟨1.5, 1, 1, 0, 0, 0, 0, 0⟩ := rfl
example : parse_response_gen (pyStr "\x7b\"grain\": 0.1234, \"temperature\": -3.5\x7d") =
    .ok ⟨.str (pyStr "Botanical Custom"), 1, 1, 1, -4, 0, 0.123, 0, 0⟩ := rfl

/-- C1.  For every range table used by the endpoints (the conservative
`generate-filter` table and the expanded `refine-filter`/`match-style`
table) and every JSON input value — including `null` (a missing/`None`
value), strings, arrays, objects, `NaN` and out-of-bounds numbers —
`clamp_value` returns a value in `[min, max]`, and on non-numeric or `NaN`
input it returns the midpoint `(min + max) / 2`. -/
theorem C1_clamp_in_range_midpoint :
    ∀ T ∈ [RANGES_gen, RANGES_refine, RANGES_match], ∀ (f : Field) (v : Json),
      (T f).min ≤ clamp_value v (T f) ∧ clamp_value v (T f) ≤ (T f).max ∧
      ((isPyNumeric v = false ∨ v = .num .nan) →
        clamp_value v (T f) = ((T f).min + (T f).max) / 2) := by
  intro T hT f v
  have h : (T f).min ≤ (T f).max := by
    simp only [List.mem_cons, List.not_mem_nil, or_false] at hT
    rcases hT with rfl | rfl | rfl <;> cases f <;> decide
  exact ⟨(clamp_value_bounds _ h v).1, (clamp_value_bounds _ h v).2,
    clamp_value_midpoint _ v⟩

/-- Witness for C1: the conservative table, field `brightness`, input
`null` (a missing value). -/
theorem C1_witness :
    RANGES_gen ∈ [RANGES_gen, RANGES_refine, RANGES_match] ∧
    ((RANGES_gen .brightness).min ≤ clamp_value .null (RANGES_gen .brightness) ∧
      clamp_value .null (RANGES_gen .brightness) ≤ (RANGES_gen .brightness).max ∧
      ((isPyNumeric .null = false ∨ Json.null = .num .nan) →
        clamp_value .null (RANGES_gen .brightness) =
          ((RANGES_gen .brightness).min + (RANGES_gen .brightness).max) / 2)) :=
  ⟨List.mem_cons_self _ _,
    C1_clamp_in_range_midpoint RANGES_gen (List.mem_cons_self _ _) .brightness .null⟩

/-- C9.  `clamp_value` treats JSON booleans as numbers (Python's
`isinstance(True, int)` holds and `True == 1`, `False == 0`): `true` clamps
as the number 1 and `false` as the number 0, never the midpoint.  In
particular, for the `generate-filter` grain range `[0, 0.15]`, `true`
gives `0.15`, which differs from the midpoint `0.075`. -/
theorem C9_clamp_bool_as_number :
    ∀ r : RangeDef,
      clamp_value (.bool true) r = max r.min (min r.max 1) ∧
      clamp_value (.bool false) r = max r.min (min r.max 0) ∧
      clamp_value (.bool true) (RANGES_gen .grain) = 0.15 ∧
      clamp_value (.bool true) (RANGES_gen .grain) ≠
        ((RANGES_gen .grain).min + (RANGES_gen .grain).max) / 2 := by
  intro r
  exact ⟨rfl, rfl, by decide, by decide⟩

/-- Counterexample to C3 as stated: `[1, 2, 3]` parses as JSON, yet
`parse_response` raises (`AttributeError` from `parsed.get` on a list), so
the validator does not only raise on texts that fail JSON parsing. -/
theorem C3_counterexample :
    jsonLoads (stripFences (pyStr "[1, 2, 3]")) =
      some (.arr [.num (.rat 1), .num (.rat 2), .num (.rat 3)]) ∧
    parse_response_refine (pyStr "[1, 2, 3]") = .error .attrError ∧
    parse_response_gen (pyStr "[1, 2, 3]") = .error .attrError :=
  ⟨rfl, rfl, rfl⟩

/-- C3 amended: for every input text whose fence-stripped form parses as a
JSON **object**, `parse_response` (both variants) never raises, regardless
of which fields are missing, non-numeric or out of range; it raises
`JSONDecodeError` exactly when JSON parsing fails, and `AttributeError`
when the parsed JSON is not an object. -/
theorem C3_no_raise_on_object :
    ∀ t : PyStr,
      (jsonLoads (stripFences t) = none →
        parse_response_refine t = .error .jsonDecode ∧
        parse_response_gen t = .error .jsonDecode) ∧
      (∀ fs, jsonLoads (stripFences t) = some (.obj fs) →
        (∃ r, parse_response_refine t = .ok r) ∧
        (∃ g, parse_response_gen t = .ok g)) ∧
      (∀ j, jsonLoads (stripFences t) = some j → (∀ fs, j ≠ .obj fs) →
        parse_response_refine t = .error .attrError ∧
        parse_response_gen t = .error .attrError) := by
  intro t
  refine ⟨fun h => ?_, fun fs h => ?_, fun j h hne => ?_⟩
  · unfold parse_response_refine parse_response_gen
    rw [h]
    exact ⟨rfl, rfl⟩
  · unfold parse_response_refine parse_response_gen
    rw [h]
    exact ⟨⟨_, rfl⟩, ⟨_, rfl⟩⟩
  · unfold parse_response_refine parse_response_gen
    rw [h]
    cases j with
    | obj fs => exact absurd rfl (hne fs)
    | null => exact ⟨rfl, rfl⟩
    | bool b => exact ⟨rfl, rfl⟩
    | num x => exact ⟨rfl, rfl⟩
    | str s => exact ⟨rfl, rfl⟩
    | arr xs => exact ⟨rfl, rfl⟩

/-- Witness for C3: the object branch at the concrete input `{}`. -/
theorem C3_witness :
    (∃ r, parse_response_refine (pyStr "\x7b\x7d") = .ok r) ∧
    (∃ g, parse_response_gen (pyStr "\x7b\x7d") = .ok g) :=
  (C3_no_raise_on_object (pyStr "\x7b\x7d")).2.1 [] rfl

/-- Counterexample to C4 as stated: on `{"name": ""}` the `"name"` field is
present but empty, and `parse_response` returns the empty string, not the
placeholder `"Botanical Custom"` (Python's `dict.get` only substitutes the
default when the key is absent). -/
theorem C4_counterexample :
    parse_response_gen (pyStr "\x7b\"name\": \"\"\x7d") =
      .ok ⟨.str [], 1, 1, 1, 0, 0, 0, 0, 0⟩ ∧
    pyStr "Botanical Custom" ≠ ([] : PyStr) :=
  ⟨rfl, by decide⟩

/-- C4 amended: the returned display name equals the placeholder
`"Botanical Custom"` whenever the parsed object has no `"name"` key, and
equals the parsed value (even an empty string) whenever the key is
present. -/
theorem C4_name_default_iff_absent :
    ∀ (t : PyStr) (fs : List (PyStr × Json)),
      jsonLoads (stripFences t) = some (.obj fs) →
      (pyHasKey fs (pyStr "name") = false →
        (parse_response_gen t).map GenFilter.name =
          .ok (.str (pyStr "Botanical Custom"))) ∧
      (∀ v, objFind fs (pyStr "name") = some v →
        (parse_response_gen t).map GenFilter.name = .ok v) := by
  intro t fs h
  have hred : parse_response_gen t = validateGen (.obj fs) := by
    unfold parse_response_gen
    rw [h]
  rw [hred]
  constructor
  · intro hk
    unfold pyHasKey at hk
    simp only [validateGen, pyGetD]
    cases hf : objFind fs (pyStr "name") with
    | none => rfl
    | some v => rw [hf] at hk; simp at hk
  · intro v hv
    simp only [validateGen, pyGetD]
    rw [hv]
    rfl

lemma rndHalfEven_eq_ite (x : ℚ) :
    rndHalfEven x =
      if x - ⌊x⌋ < 1 / 2 then ⌊x⌋
      else if 1 / 2 < x - ⌊x⌋ then ⌊x⌋ + 1
      else if ⌊x⌋ % 2 = 0 then ⌊x⌋ else ⌊x⌋ + 1 := rfl

lemma rndHalfEven_bounds {a b : ℤ} {x : ℚ} (ha : (a : ℚ) ≤ x) (hb : x ≤ (b : ℚ)) :
    a ≤ rndHalfEven x ∧ rndHalfEven x ≤ b := by
  have hna : a ≤ ⌊x⌋ := Int.le_floor.mpr ha
  have hfl : (⌊x⌋ : ℚ) ≤ x := Int.floor_le x
  have hnb : ⌊x⌋ ≤ b := by
    have := Int.floor_le_floor hb
    rwa [Int.floor_intCast] at this
  rw [rndHalfEven_eq_ite]
  split_ifs with h1 h2 h3
  · exact ⟨hna, hnb⟩
  · have hlt : (⌊x⌋ : ℚ) < x := by linarith
    have : ⌊x⌋ < b := by exact_mod_cast lt_of_lt_of_le hlt hb
    exact ⟨le_trans hna (by omega), by omega⟩
  · exact ⟨hna, hnb⟩
  · have hhalf : x - ⌊x⌋ = 1 / 2 := le_antisymm (not_lt.mp h2) (not_lt.mp h1)
    have hlt : (⌊x⌋ : ℚ) < x := by linarith
    have : ⌊x⌋ < b := by exact_mod_cast lt_of_lt_of_le hlt hb
    exact ⟨le_trans hna (by omega), by omega⟩

lemma rndHalfEven_intCast (z : ℤ) : rndHalfEven (z : ℚ) = z := by
  rw [rndHalfEven_eq_ite, Int.floor_intCast, sub_self]
  rw [if_pos (by norm_num)]

lemma pyRound_bounds (d : ℕ) {lo hi x : ℚ} (A B : ℤ)
    (hA : (A : ℚ) = lo * 10 ^ d) (hB : (B : ℚ) = hi * 10 ^ d)
    (hlo : lo ≤ x) (hhi : x ≤ hi) : lo ≤ pyRound x d ∧ pyRound x d ≤ hi := by
  have hp : (0 : ℚ) < 10 ^ d := by positivity
  have h1 : (A : ℚ) ≤ x * 10 ^ d := by
    rw [hA]; exact mul_le_mul_of_nonneg_right hlo hp.le
  have h2 : x * 10 ^ d ≤ (B : ℚ) := by
    rw [hB]; exact mul_le_mul_of_nonneg_right hhi hp.le
  obtain ⟨ra, rb⟩ := rndHalfEven_bounds h1 h2
  constructor
  · have h3 : (A : ℚ) / 10 ^ d ≤ (rndHalfEven (x * 10 ^ d) : ℚ) / 10 ^ d :=
      (div_le_div_iff_of_pos_right hp).mpr (by exact_mod_cast ra)
    rw [hA, mul_div_cancel_right₀ _ hp.ne'] at h3
    simpa [pyRound] using h3
  · have h3 : (rndHalfEven (x * 10 ^ d) : ℚ) / 10 ^ d ≤ (B : ℚ) / 10 ^ d :=
      (div_le_div_iff_of_pos_right hp).mpr (by exact_mod_cast rb)
    rw [hB, mul_div_cancel_right₀ _ hp.ne'] at h3
    simpa [pyRound] using h3

lemma pyRound_fixed (d : ℕ) {x : ℚ} (z : ℤ) (h : (z : ℚ) = x * 10 ^ d) :
    pyRound x d = x := by
  have hp : (10 : ℚ) ^ d ≠ 0 := by positivity
  rw [pyRound, ← h, rndHalfEven_intCast, h]
  field_simp

/-- The scaled value of `pyRound x d` is the integer `rndHalfEven (x*10^d)`. -/
lemma pyRound_scaled (d : ℕ) (x : ℚ) :
    ((rndHalfEven (x * 10 ^ d) : ℤ) : ℚ) = pyRound x d * 10 ^ d := by
  have hp : (10 : ℚ) ^ d ≠ 0 := by positivity
  rw [pyRound]
  field_simp

/-- Fixed-point facts for one validated field: the rounded clamp of any
input lies in the range (so re-clamping it is the identity) and re-rounding
it is the identity. -/
lemma roundClamp_fixed (r : RangeDef) (d : ℕ) (A B : ℤ)
    (hA : (A : ℚ) = r.min * 10 ^ d) (hB : (B : ℚ) = r.max * 10 ^ d)
    (h : r.min ≤ r.max) (v : Json) :
    clamp_value (.num (.rat (pyRound (clamp_value v r) d))) r =
      pyRound (clamp_value v r) d ∧
    pyRound (pyRound (clamp_value v r) d) d = pyRound (clamp_value v r) d := by
  obtain ⟨hb1, hb2⟩ := clamp_value_bounds r h v
  obtain ⟨hy1, hy2⟩ := pyRound_bounds d A B hA hB hb1 hb2
  constructor
  · show max r.min (min r.max (pyRound (clamp_value v r) d)) = _
    rw [min_eq_right hy2, max_eq_right hy1]
  · exact pyRound_fixed d (rndHalfEven (clamp_value v r * 10 ^ d))
      (pyRound_scaled d (clamp_value v r))

lemma validateRefine_roundtrip (p : FilterParams)
    (h1 : clamp_value (.num (.rat p.brightness)) (RANGES_refine .brightness) = p.brightness)
    (h1' : pyRound p.brightness 2 = p.brightness)
    (h2 : clamp_value (.num (.rat p.contrast)) (RANGES_refine .contrast) = p.contrast)
    (h2' : pyRound p.contrast 2 = p.contrast)
    (h3 : clamp_value (.num (.rat p.saturation)) (RANGES_refine .saturation) = p.saturation)
    (h3' : pyRound p.saturation 2 = p.saturation)
    (h4 : clamp_value (.num (.rat p.temperature)) (RANGES_refine .temperature) = p.temperature)
    (h4' : pyRound p.temperature 0 = p.temperature)
    (h5 : clamp_value (.num (.rat p.tint)) (RANGES_refine .tint) = p.tint)
    (h5' : pyRound p.tint 0 = p.tint)
    (h6 : clamp_value (.num (.rat p.grain)) (RANGES_refine .grain) = p.grain)
    (h6' : pyRound p.grain 3 = p.grain)
    (h7 : clamp_value (.num (.rat p.vignette)) (RANGES_refine .vignette) = p.vignette)
    (h7' : pyRound p.vignette 2 = p.vignette)
    (h8 : clamp_value (.num (.rat p.fade)) (RANGES_refine .fade) = p.fade)
    (h8' : pyRound p.fade 3 = p.fade) :
    validateRefine (refineToJson p) = .ok p := by
  show Except.ok (FilterParams.mk
      (pyRound (clamp_value (.num (.rat p.brightness)) (RANGES_refine .brightness)) 2)
      (pyRound (clamp_value (.num (.rat p.contrast)) (RANGES_refine .contrast)) 2)
      (pyRound (clamp_value (.num (.rat p.saturation)) (RANGES_refine .saturation)) 2)
      (pyRound (clamp_value (.num (.rat p.temperature)) (RANGES_refine .temperature)) 0)
      (pyRound (clamp_value (.num (.rat p.tint)) (RANGES_refine .tint)) 0)
      (pyRound (clamp_value (.num (.rat p.grain)) (RANGES_refine .grain)) 3)
      (pyRound (clamp_value (.num (.rat p.vignette)) (RANGES_refine .vignette)) 2)
      (pyRound (clamp_value (.num (.rat p.fade)) (RANGES_refine .fade)) 3)) = .ok p
  rw [h1, h1', h2, h2', h3, h3', h4, h4', h5, h5', h6, h6', h7, h7', h8, h8']

lemma validateGen_roundtrip (g : GenFilter)
    (h1 : clamp_value (.num (.rat g.brightness)) (RANGES_gen .brightness) = g.brightness)
    (h1' : pyRound g.brightness 2 = g.brightness)
    (h2 : clamp_value (.num (.rat g.contrast)) (RANGES_gen .contrast) = g.contrast)
    (h2' : pyRound g.contrast 2 = g.contrast)
    (h3 : clamp_value (.num (.rat g.saturation)) (RANGES_gen .saturation) = g.saturation)
    (h3' : pyRound g.saturation 2 = g.saturation)
    (h4 : clamp_value (.num (.rat g.temperature)) (RANGES_gen .temperature) = g.temperature)
    (h4' : pyRound g.temperature 0 = g.temperature)
    (h5 : clamp_value (.num (.rat g.tint)) (RANGES_gen .tint) = g.tint)
    (h5' : pyRound g.tint 0 = g.tint)
    (h6 : clamp_value (.num (.rat g.grain)) (RANGES_gen .grain) = g.grain)
    (h6' : pyRound g.grain 3 = g.grain)
    (h7 : clamp_value (.num (.rat g.vignette)) (RANGES_gen .vignette) = g.vignette)
    (h7' : pyRound g.vignette 2 = g.vignette)
    (h8 : clamp_value (.num (.rat g.fade)) (RANGES_gen .fade) = g.fade)
    (h8' : pyRound g.fade 3 = g.fade) :
    validateGen (genToJson g) = .ok g := by
  show Except.ok (GenFilter.mk g.name
      (pyRound (clamp_value (.num (.rat g.brightness)) (RANGES_gen .brightness)) 2)
      (pyRound (clamp_value (.num (.rat g.contrast)) (RANGES_gen .contrast)) 2)
      (pyRound (clamp_value (.num (.rat g.saturation)) (RANGES_gen .saturation)) 2)
      (pyRound (clamp_value (.num (.rat g.temperature)) (RANGES_gen .temperature)) 0)
      (pyRound (clamp_value (.num (.rat g.tint)) (RANGES_gen .tint)) 0)
      (pyRound (clamp_value (.num (.rat g.grain)) (RANGES_gen .grain)) 3)
      (pyRound (clamp_value (.num (.rat g.vignette)) (RANGES_gen .vignette)) 2)
      (pyRound (clamp_value (.num (.rat g.fade)) (RANGES_gen .fade)) 3)) = .ok g
  rw [h1, h1', h2, h2', h3, h3', h4, h4', h5, h5', h6, h6', h7, h7', h8, h8']

/-- C6.  The Response Validator is idempotent: if validation accepts a
parsed response and produces a record, re-running the validator on the
JSON form of that record (its `json.dumps`/`json.loads` round trip, which
is the identity in the exact-arithmetic model) yields the same record —
every field, including rounding and clamping, is a fixed point.  Stated
for both the refine/match variant and the generate variant. -/
theorem C6_validator_idempotent :
    (∀ (j : Json) (p : FilterParams),
      validateRefine j = .ok p → validateRefine (refineToJson p) = .ok p) ∧
    (∀ (j : Json) (g : GenFilter),
      validateGen j = .ok g → validateGen (genToJson g) = .ok g) := by
  constructor
  · intro j p hp
    cases j with
    | obj fs =>
      simp only [validateRefine] at hp
      injection hp with hp
      subst hp
      exact validateRefine_roundtrip _
        (roundClamp_fixed (RANGES_refine .brightness) 2 60 150 (by decide) (by decide) (by decide) _).1
        (roundClamp_fixed (RANGES_refine .brightness) 2 60 150 (by decide) (by decide) (by decide) _).2
        (roundClamp_fixed (RANGES_refine .contrast) 2 60 150 (by decide) (by decide) (by decide) _).1
        (roundClamp_fixed (RANGES_refine .contrast) 2 60 150 (by decide) (by decide) (by decide) _).2
        (roundClamp_fixed (RANGES_refine .saturation) 2 30 180 (by decide) (by decide) (by decide) _).1
        (roundClamp_fixed (RANGES_refine .saturation) 2 30 180 (by decide) (by decide) (by decide) _).2
        (roundClamp_fixed (RANGES_refine .temperature) 0 (-40) 40 (by decide) (by decide) (by decide) _).1
        (roundClamp_fixed (RANGES_refine .temperature) 0 (-40) 40 (by decide) (by decide) (by decide) _).2
        (roundClamp_fixed (RANGES_refine .tint) 0 (-25) 25 (by decide) (by decide) (by decide) _).1
        (roundClamp_fixed (RANGES_refine .tint) 0 (-25) 25 (by decide) (by decide) (by decide) _).2
        (roundClamp_fixed (RANGES_refine .grain) 3 0 400 (by decide) (by decide) (by decide) _).1
        (roundClamp_fixed (RANGES_refine .grain) 3 0 400 (by decide) (by decide) (by decide) _).2
        (roundClamp_fixed (RANGES_refine .vignette) 2 0 60 (by decide) (by decide) (by decide) _).1
        (roundClamp_fixed (RANGES_refine .vignette) 2 0 60 (by decide) (by decide) (by decide) _).2
        (roundClamp_fixed (RANGES_refine .fade) 3 0 350 (by decide) (by decide) (by decide) _).1
        (roundClamp_fixed (RANGES_refine .fade) 3 0 350 (by decide) (by decide) (by decide) _).2
    | null => simp [validateRefine] at hp
    | bool b => simp [validateRefine] at hp
    | num x => simp [validateRefine] at hp
    | str s => simp [validateRefine] at hp
    | arr xs => simp [validateRefine] at hp
  · intro j g hg
    cases j with
    | obj fs =>
      simp only [validateGen] at hg
      injection hg with hg
      subst hg
      exact validateGen_roundtrip _
        (roundClamp_fixed (RANGES_gen .brightness) 2 85 115 (by decide) (by decide) (by decide) _).1
        (roundClamp_fixed (RANGES_gen .brightness) 2 85 115 (by decide) (by decide) (by decide) _).2
        (roundClamp_fixed (RANGES_gen .contrast) 2 85 120 (by decide) (by decide) (by decide) _).1
        (roundClamp_fixed (RANGES_gen .contrast) 2 85 120 (by decide) (by decide) (by decide) _).2
        (roundClamp_fixed (RANGES_gen .saturation) 2 70 140 (by decide) (by decide) (by decide) _).1
        (roundClamp_fixed (RANGES_gen .saturation) 2 70 140 (by decide) (by decide) (by decide) _).2
        (roundClamp_fixed (RANGES_gen .temperature) 0 (-20) 20 (by decide) (by decide) (by decide) _).1
        (roundClamp_fixed (RANGES_gen .temperature) 0 (-20) 20 (by decide) (by decide) (by decide) _).2
        (roundClamp_fixed (RANGES_gen .tint) 0 (-10) 10 (by decide) (by decide) (by decide) _).1
        (roundClamp_fixed (RANGES_gen .tint) 0 (-10) 10 (by decide) (by decide) (by decide) _).2
        (roundClamp_fixed (RANGES_gen .grain) 3 0 150 (by decide) (by decide) (by decide) _).1
        (roundClamp_fixed (RANGES_gen .grain) 3 0 150 (by decide) (by decide) (by decide) _).2
        (roundClamp_fixed (RANGES_gen .vignette) 2 0 35 (by decide) (by decide) (by decide) _).1
        (roundClamp_fixed (RANGES_gen .vignette) 2 0 35 (by decide) (by decide) (by decide) _).2
        (roundClamp_fixed (RANGES_gen .fade) 3 0 120 (by decide) (by decide) (by decide) _).1
        (roundClamp_fixed (RANGES_gen .fade) 3 0 120 (by decide) (by decide) (by decide) _).2
    | null => simp [validateGen] at hg
    | bool b => simp [validateGen] at hg
    | num x => simp [validateGen] at hg
    | str s => simp [validateGen] at hg
    | arr xs => simp [validateGen] at hg

/-- Witness for C6: validating the all-defaults record round-trips. -/
theorem C6_witness :
    validateRefine (refineToJson ⟨1, 1, 1, 0, 0, 0, 0, 0⟩) =
      .ok ⟨1, 1, 1, 0, 0, 0, 0, 0⟩ :=
  C6_validator_idempotent.1 (Json.obj []) ⟨1, 1, 1, 0, 0, 0, 0, 0⟩ rfl

/-- Witness for C4: concrete inputs for both branches. -/
theorem C4_witness :
    ((parse_response_gen (pyStr "\x7b\"tint\": 3\x7d")).map GenFilter.name =
      .ok (.str (pyStr "Botanical Custom"))) ∧
    ((parse_response_gen (pyStr "\x7b\"name\": \"Soft Fern\"\x7d")).map GenFilter.name =
      .ok (.str (pyStr "Soft Fern"))) :=
  ⟨(C4_name_default_iff_absent (pyStr "\x7b\"tint\": 3\x7d") _ rfl).1 rfl,
    (C4_name_default_iff_absent (pyStr "\x7b\"name\": \"Soft Fern\"\x7d") _ rfl).2
      (.str (pyStr "Soft Fern")) rfl⟩

lemma replAux_congr (pat rep : PyStr) :
    ∀ f₁ f₂ s, s.length ≤ f₁ → s.length ≤ f₂ →
      replAux pat rep f₁ s = replAux pat rep f₂ s := by
  intro f₁
  induction f₁ with
  | zero =>
    intro f₂ s h1 _
    have hs : s = [] := List.eq_nil_of_length_eq_zero (Nat.le_zero.mp h1)
    subst hs
    cases f₂ <;> rfl
  | succ f ih =>
    intro f₂ s h1 h2
    cases s with
    | nil => cases f₂ <;> rfl
    | cons c s' =>
      cases f₂ with
      | zero => simp at h2
      | succ f₂' =>
        have hl1 : s'.length ≤ f := by simpa using h1
        have hl2 : s'.length ≤ f₂' := by simpa using h2
        simp only [replAux]
        by_cases hc : pat ≠ [] ∧ pat.isPrefixOf (c :: s')
        · rw [if_pos hc, if_pos hc]
          have hplen : 0 < pat.length := List.length_pos.mpr hc.1
          have hd : ((c :: s').drop pat.length).length ≤ f := by
            simp only [List.length_drop, List.length_cons]
            omega
          have hd2 : ((c :: s').drop pat.length).length ≤ f₂' := by
            simp only [List.length_drop, List.length_cons]
            omega
          rw [ih _ _ hd hd2]
        · rw [if_neg hc, if_neg hc, ih _ _ hl1 hl2]

lemma pyReplace_nil (pat rep : PyStr) : pyReplace pat rep [] = [] := rfl

lemma pyReplace_cons (pat rep : PyStr) (c : Char) (s : PyStr) :
    pyReplace pat rep (c :: s) =
      if pat ≠ [] ∧ pat.isPrefixOf (c :: s) then
        rep ++ pyReplace pat rep ((c :: s).drop pat.length)
      else c :: pyReplace pat rep s := by
  show replAux pat rep (s.length + 1) (c :: s) = _
  simp only [replAux]
  by_cases hc : pat ≠ [] ∧ pat.isPrefixOf (c :: s)
  · rw [if_pos hc, if_pos hc]
    have hplen : 0 < pat.length := List.length_pos.mpr hc.1
    refine congrArg (fun x => rep ++ x) (replAux_congr pat rep _ _ _ ?_ le_rfl)
    simp only [List.length_drop, List.length_cons]
    omega
  · rw [if_neg hc, if_neg hc]
    rfl

lemma pyReplace_no_occ (pat rep : PyStr) (_hne : pat ≠ []) :
    ∀ s, ¬ pat <:+: s → pyReplace pat rep s = s := by
  intro s
  induction s with
  | nil => intro _; rfl
  | cons c s' ih =>
    intro h
    have hcond : ¬ (pat ≠ [] ∧ pat.isPrefixOf (c :: s') = true) := by
      rintro ⟨-, hp⟩
      exact h (List.isPrefixOf_iff_prefix.mp hp).isInfix
    rw [pyReplace_cons, if_neg hcond, ih (fun hin => h (List.infix_cons hin))]

lemma pyReplace_head (pat rep v : PyStr) (hne : pat ≠ []) :
    pyReplace pat rep (pat ++ v) = rep ++ pyReplace pat rep v := by
  cases pat with
  | nil => exact absurd rfl hne
  | cons p pt =>
    have hpre : (p :: pt).isPrefixOf ((p :: pt) ++ v) = true :=
      List.isPrefixOf_iff_prefix.mpr (List.prefix_append _ _)
    rw [List.cons_append, pyReplace_cons,
      if_pos ⟨hne, by rwa [← List.cons_append]⟩]
    rw [← List.cons_append, List.drop_left]

lemma pyReplace_middle (pat rep : PyStr) (hne : pat ≠ []) :
    ∀ u v, ¬ pat <:+: (u ++ pat.dropLast) →
      pyReplace pat rep (u ++ (pat ++ v)) = u ++ (rep ++ pyReplace pat rep v) := by
  intro u
  induction u with
  | nil =>
    intro v _
    simpa using pyReplace_head pat rep v hne
  | cons c u' ih =>
    intro v h
    have hnp : ¬ pat <+: (c :: u') ++ (pat ++ v) := by
      intro hp
      apply h
      have hpre2 : (c :: u') ++ pat.dropLast <+: (c :: u') ++ (pat ++ v) :=
        (List.prefix_append_right_inj _).mpr
          ((List.dropLast_prefix pat).trans (List.prefix_append _ _))
      have hlen : pat.length ≤ ((c :: u') ++ pat.dropLast).length := by
        have h1 : 0 < pat.length := List.length_pos.mpr hne
        simp only [List.length_append, List.length_cons, List.length_dropLast]
        omega
      exact (List.prefix_of_prefix_length_le hp hpre2 hlen).isInfix
    have hcond : ¬ (pat ≠ [] ∧ pat.isPrefixOf (c :: (u' ++ (pat ++ v))) = true) := by
      rintro ⟨-, hp⟩
      apply hnp
      rw [List.cons_append]
      exact List.isPrefixOf_iff_prefix.mp hp
    have hih : ¬ pat <:+: u' ++ pat.dropLast := by
      intro hin
      apply h
      rw [List.cons_append]
      exact List.infix_cons hin
    rw [List.cons_append, pyReplace_cons, if_neg hcond, ih v hih]
    rfl

/-- Decomposition of an occurrence inside a concatenation: the occurrence
lies in the left part, in the right part, or crosses the boundary. -/
lemma occSplit_append {l a b : PyStr} (h : l <:+: a ++ b) :
    l <:+: a ∨ l <:+: b ∨
      ∃ l₁ l₂, l₁ ++ l₂ = l ∧ l₁ ≠ [] ∧ l₂ ≠ [] ∧ l₁ <:+ a ∧ l₂ <+: b := by
  obtain ⟨s, t, hst⟩ := h
  rw [List.append_assoc] at hst
  rcases List.append_eq_append_iff.mp hst with ⟨k, hak, hX⟩ | ⟨k, hsk, hbk⟩
  · rcases List.append_eq_append_iff.mp hX with ⟨m, hkm, htm⟩ | ⟨m, hlm, hbm⟩
    · left
      exact ⟨s, m, by rw [hak, hkm, List.append_assoc]⟩
    · cases k with
      | nil =>
        right; left
        simp only [List.nil_append] at hlm
        exact ⟨[], t, by simp [← hlm, hbm]⟩
      | cons k0 k' =>
        cases m with
        | nil =>
          left
          have hsuf : l <:+ a := ⟨s, by rw [hak, hlm]; simp⟩
          exact hsuf.isInfix
        | cons m0 m' =>
          right; right
          exact ⟨k0 :: k', m0 :: m', hlm.symm, by simp, by simp,
            ⟨s, hak.symm⟩, ⟨t, hbm.symm⟩⟩
  · right; left
    exact ⟨k, t, by rw [hbk, List.append_assoc]⟩

/-- A boundary-crossing occurrence forces the first character of the right
part to be a character of the pattern. -/
lemma cross_head_mem {pat l₁ l₂ : PyStr} {c : Char} {b : PyStr}
    (hsplit : l₁ ++ l₂ = pat) (hne : l₂ ≠ []) (hpre : l₂ <+: c :: b) :
    c ∈ pat := by
  cases l₂ with
  | nil => exact absurd rfl hne
  | cons d l₂' =>
    obtain ⟨hd, -⟩ := List.cons_prefix_cons.mp hpre
    subst hd
    rw [← hsplit]
    exact List.mem_append_right _ (List.mem_cons_self _ _)

/-- A boundary-crossing occurrence forces the last character of the left
part to be a character of the pattern. -/
lemma cross_last_mem {pat l₁ l₂ : PyStr} {a : PyStr} {c : Char}
    (hsplit : l₁ ++ l₂ = pat) (hne : l₁ ≠ []) (hsuf : l₁ <:+ a ++ [c]) :
    c ∈ pat := by
  obtain ⟨p, hp⟩ := hsuf
  have h1 : (p ++ l₁).getLast? = some c := by
    rw [hp]
    exact List.getLast?_concat _
  cases hl : l₁.getLast? with
  | none => exact absurd (List.getLast?_eq_none_iff.mp hl) hne
  | some d =>
    rw [List.getLast?_append, hl] at h1
    have hd : d = c := by simpa using h1
    subst hd
    rw [← hsplit]
    exact List.mem_append_left _ (List.mem_of_getLast?_eq_some hl)

lemma no_bt3_in_mid {t : PyStr} (H : ¬ pyStr "```" <:+: t) :
    ¬ pyStr "```" <:+: (pyStr "\n" ++ (t ++ pyStr "\n``")) := by
  intro h
  rcases occSplit_append h with h1 | h2 | ⟨l₁, l₂, hs, hn1, hn2, hsuf, hpre⟩
  · exact absurd h1.length_le (by decide)
  · rcases occSplit_append h2 with h3 | h4 | ⟨l₁, l₂, hs, hn1, hn2, hsuf, hpre⟩
    · exact H h3
    · exact absurd h4 (by decide)
    · exact absurd (cross_head_mem hs hn2 hpre) (by decide)
  · exact absurd
      (cross_last_mem (a := []) (c := '\n') hs hn1 (by simpa using hsuf))
      (by decide)

lemma no_bt7_in_mid {t : PyStr} (H : ¬ pyStr "```" <:+: t) :
    ¬ pyStr "```json" <:+: (pyStr "\n" ++ (t ++ pyStr "\n```")) := by
  intro h
  rcases occSplit_append h with h1 | h2 | ⟨l₁, l₂, hs, hn1, hn2, hsuf, hpre⟩
  · exact absurd h1.length_le (by decide)
  · rcases occSplit_append h2 with h3 | h4 | ⟨l₁, l₂, hs, hn1, hn2, hsuf, hpre⟩
    · exact H ((by decide : pyStr "```" <+: pyStr "```json").isInfix.trans h3)
    · exact absurd h4 (by decide)
    · exact absurd (cross_head_mem hs hn2 hpre) (by decide)
  · exact absurd
      (cross_last_mem (a := []) (c := '\n') hs hn1 (by simpa using hsuf))
      (by decide)

lemma no_bt7_plain {t : PyStr} (H : ¬ pyStr "```" <:+: t) :
    ¬ pyStr "```json" <:+:
      (pyStr "```" ++ (pyStr "\n" ++ (t ++ pyStr "\n```"))) := by
  intro h
  rcases occSplit_append h with h1 | h2 | ⟨l₁, l₂, hs, hn1, hn2, hsuf, hpre⟩
  · exact absurd h1.length_le (by decide)
  · exact no_bt7_in_mid H h2
  · exact absurd (cross_head_mem hs hn2 hpre) (by decide)

lemma stripLeft_cons_of_space {c : Char} {s : PyStr} (h : isSpaceChar c = true) :
    stripLeft (c :: s) = stripLeft s := by
  simp [stripLeft, List.dropWhile_cons, h]

lemma stripLeft_cons_of_not {c : Char} {s : PyStr} (h : isSpaceChar c = false) :
    stripLeft (c :: s) = c :: s := by
  simp [stripLeft, List.dropWhile_cons, h]

lemma stripRight_concat_of_not {c : Char} {s : PyStr} (h : isSpaceChar c = false) :
    stripRight (s ++ [c]) = s ++ [c] := by
  simp [stripRight, List.dropWhile_cons, h]

lemma stripRight_concat_of_space {c : Char} {s : PyStr} (h : isSpaceChar c = true) :
    stripRight (s ++ [c]) = stripRight s := by
  simp [stripRight, List.dropWhile_cons, h]

lemma pyStrip_concat_space {c : Char} {s : PyStr} (h : isSpaceChar c = true) :
    pyStrip (s ++ [c]) = pyStrip s := by
  unfold pyStrip
  rw [stripRight_concat_of_space h]

lemma pyStrip_cons_space {c : Char} {s : PyStr} (h : isSpaceChar c = true) :
    pyStrip (c :: s) = pyStrip s := by
  unfold pyStrip stripRight
  rw [List.reverse_cons, List.dropWhile_append]
  by_cases he : (s.reverse.dropWhile isSpaceChar).isEmpty
  · rw [if_pos he]
    have h2 : s.reverse.dropWhile isSpaceChar = [] := by
      simpa [List.isEmpty_iff] using he
    simp [List.dropWhile_cons, h, h2]
  · rw [if_neg he]
    simp [List.reverse_append, stripLeft_cons_of_space h]

lemma pyStrip_id_shape {c d : Char} (hc : isSpaceChar c = false)
    (hd : isSpaceChar d = false) (m : PyStr) :
    pyStrip (c :: (m ++ [d])) = c :: (m ++ [d]) := by
  unfold pyStrip
  rw [show (c :: (m ++ [d])) = (c :: m) ++ [d] from rfl]
  rw [stripRight_concat_of_not hd]
  rw [show ((c :: m) ++ [d]) = c :: (m ++ [d]) from rfl]
  exact stripLeft_cons_of_not hc

lemma pyStrip_isInfix (s : PyStr) : pyStrip s <:+: s := by
  have h1 : pyStrip s <:+ stripRight s := List.dropWhile_suffix _
  have h2 : stripRight s <+: s := by
    have h3 := List.reverse_prefix.mpr
      (List.dropWhile_suffix (l := s.reverse) isSpaceChar)
    rwa [List.reverse_reverse] at h3
  exact h1.isInfix.trans h2.isInfix

lemma pyStrip_fenceWrap (tag t : PyStr) (htag : tag = [] ∨ tag = pyStr "json") :
    pyStrip (fenceWrap tag t) = fenceWrap tag t := by
  rcases htag with rfl | rfl
  · have e : fenceWrap [] t =
        '\x60' :: ((pyStr "``" ++ (pyStr "\n" ++ (t ++ pyStr "\n``"))) ++ ['\x60']) := by
      simp only [fenceWrap, List.append_assoc, List.cons_append, List.nil_append]
      rfl
    rw [e, pyStrip_id_shape (by decide) (by decide)]
  · have e : fenceWrap (pyStr "json") t =
        '\x60' :: ((pyStr "``json" ++ (pyStr "\n" ++ (t ++ pyStr "\n``"))) ++ ['\x60']) := by
      simp only [fenceWrap, List.append_assoc, List.cons_append, List.nil_append]
      rfl
    rw [e, pyStrip_id_shape (by decide) (by decide)]

lemma stripFences_of_no_fence {t : PyStr} (H : ¬ pyStr "```" <:+: t) :
    stripFences t = pyStrip t := by
  have hsw : ¬ (pyStartsWith (pyStr "```") (pyStrip t) = true) := fun hsw =>
    H ((List.isPrefixOf_iff_prefix.mp hsw).isInfix.trans (pyStrip_isInfix t))
  unfold stripFences
  rw [if_neg hsw]

lemma stripFences_fenceWrap {t : PyStr} (H : ¬ pyStr "```" <:+: t)
    (tag : PyStr) (htag : tag = [] ∨ tag = pyStr "json") :
    stripFences (fenceWrap tag t) = pyStrip t := by
  unfold stripFences
  rw [pyStrip_fenceWrap tag t htag]
  have emid : pyStr "\n" ++ (t ++ pyStr "\n```") =
      (pyStr "\n" ++ (t ++ pyStr "\n")) ++ (pyStr "```" ++ []) := by
    simp only [List.append_assoc, List.append_nil]
    rfl
  have edrop : (pyStr "\n" ++ (t ++ pyStr "\n")) ++ (pyStr "```").dropLast =
      pyStr "\n" ++ (t ++ pyStr "\n``") := by
    simp only [List.append_assoc]
    rfl
  have hnc1 : ¬ pyStr "```" <:+:
      ((pyStr "\n" ++ (t ++ pyStr "\n")) ++ (pyStr "```").dropLast) := by
    rw [edrop]
    exact no_bt3_in_mid H
  have hmid : pyReplace (pyStr "```") [] (pyStr "\n" ++ (t ++ pyStr "\n```")) =
      pyStr "\n" ++ (t ++ pyStr "\n") := by
    rw [emid, pyReplace_middle _ _ (by decide) _ _ hnc1]
    simp [pyReplace_nil]
  have hstr : pyStrip (pyStr "\n" ++ (t ++ pyStr "\n")) = pyStrip t := by
    rw [show pyStr "\n" ++ (t ++ pyStr "\n") = '\n' :: (t ++ ['\n']) from rfl]
    rw [pyStrip_cons_space (by decide), pyStrip_concat_space (by decide)]
  rcases htag with rfl | rfl
  · rw [if_pos (by rfl)]
    rw [show fenceWrap [] t =
      pyStr "```" ++ (pyStr "\n" ++ (t ++ pyStr "\n```")) from rfl]
    rw [pyReplace_no_occ _ _ (by decide) _ (no_bt7_plain H)]
    rw [pyReplace_head _ _ _ (by decide), List.nil_append, hmid, hstr]
  · rw [if_pos (by rfl)]
    rw [show fenceWrap (pyStr "json") t =
      pyStr "```json" ++ (pyStr "\n" ++ (t ++ pyStr "\n```")) from rfl]
    rw [pyReplace_head _ _ _ (by decide), List.nil_append]
    rw [pyReplace_no_occ _ _ (by decide) _ (no_bt7_in_mid H), hmid, hstr]

/-- Counterexample to C5 as stated: for the JSON text
`{"name": "x```y"}` (backticks inside a JSON string), the code-fenced
version parses to a different record, because `str.replace` deletes every
occurrence of the fence markers, not only the outer ones. -/
theorem C5_counterexample :
    jsonLoads (pyStr "\x7b\"name\": \"x```y\"\x7d") =
      some (.obj [(pyStr "name", .str (pyStr "x```y"))]) ∧
    parse_response_gen (pyStr "\x7b\"name\": \"x```y\"\x7d") =
      .ok ⟨.str (pyStr "x```y"), 1, 1, 1, 0, 0, 0, 0, 0⟩ ∧
    parse_response_gen (fenceWrap (pyStr "json") (pyStr "\x7b\"name\": \"x```y\"\x7d")) =
      .ok ⟨.str (pyStr "xy"), 1, 1, 1, 0, 0, 0, 0, 0⟩ ∧
    pyStr "x```y" ≠ pyStr "xy" :=
  ⟨rfl, rfl, rfl, by decide⟩

/-- C5 amended: for every text `t` that does not contain the triple-backtick
sequence, wrapping `t` in a Markdown code fence (with or without the `json`
language tag) yields the same `parse_response` result as the unwrapped `t`,
in both endpoint variants. -/
theorem C5_fence_strip_equiv :
    ∀ t : PyStr, ¬ pyStr "```" <:+: t →
      parse_response_gen (fenceWrap (pyStr "json") t) = parse_response_gen t ∧
      parse_response_gen (fenceWrap [] t) = parse_response_gen t ∧
      parse_response_refine (fenceWrap (pyStr "json") t) = parse_response_refine t ∧
      parse_response_refine (fenceWrap [] t) = parse_response_refine t := by
  intro t H
  have h1 := stripFences_fenceWrap H (pyStr "json") (Or.inr rfl)
  have h2 := stripFences_fenceWrap H [] (Or.inl rfl)
  have h3 := stripFences_of_no_fence H
  unfold parse_response_gen parse_response_refine
  rw [h1, h2, h3]
  exact ⟨rfl, rfl, rfl, rfl⟩

/-- Variant of `cross_head_mem` taking the first character through
`head?`. -/
lemma cross_head_mem' {pat l₁ l₂ b : PyStr} {c : Char}
    (hsplit : l₁ ++ l₂ = pat) (hne : l₂ ≠ []) (hpre : l₂ <+: b)
    (hhead : b.head? = some c) : c ∈ pat := by
  cases l₂ with
  | nil => exact absurd rfl hne
  | cons d l₂' =>
    obtain ⟨t2, ht2⟩ := hpre
    have hd : d = c := by
      rw [← ht2] at hhead
      simpa using hhead
    subst hd
    rw [← hsplit]
    exact List.mem_append_right _ (List.mem_cons_self _ _)

/-- Variant of `cross_last_mem` taking the last character through
`getLast?`. -/
lemma cross_last_mem' {pat l₁ l₂ a : PyStr} {c : Char}
    (hsplit : l₁ ++ l₂ = pat) (hne : l₁ ≠ []) (hsuf : l₁ <:+ a)
    (hlast : a.getLast? = some c) : c ∈ pat := by
  obtain ⟨p, hp⟩ := hsuf
  cases hl : l₁.getLast? with
  | none => exact absurd (List.getLast?_eq_none_iff.mp hl) hne
  | some d =>
    have h1 : a.getLast? = some d := by
      rw [← hp, List.getLast?_append, hl]
      rfl
    have hd : d = c := Option.some.inj (h1.symm.trans hlast)
    subst hd
    rw [← hsplit]
    exact List.mem_append_left _ (List.mem_of_getLast?_eq_some hl)

/-- No occurrence in a concatenation whose left part ends in a newline,
for a pattern without newlines. -/
lemma no_occ_chunk {pat a b : PyStr} (hnl : '\n' ∉ pat)
    (hlast : a.getLast? = some '\n') (ha : ¬ pat <:+: a) (hb : ¬ pat <:+: b) :
    ¬ pat <:+: a ++ b := by
  intro h
  rcases occSplit_append h with h1 | h2 | ⟨l₁, l₂, hs, hn1, hn2, hsuf, hpre⟩
  · exact ha h1
  · exact hb h2
  · exact hnl (cross_last_mem' hs hn1 hsuf hlast)

/-- No occurrence in a concatenation whose right part starts with a
newline, for a pattern without newlines. -/
lemma no_occ_chunk_head {pat a b : PyStr} (hnl : '\n' ∉ pat)
    (hhead : b.head? = some '\n') (ha : ¬ pat <:+: a) (hb : ¬ pat <:+: b) :
    ¬ pat <:+: a ++ b := by
  intro h
  rcases occSplit_append h with h1 | h2 | ⟨l₁, l₂, hs, hn1, hn2, hsuf, hpre⟩
  · exact ha h1
  · exact hb h2
  · exact hnl (cross_head_mem' hs hn2 hpre hhead)

set_option maxRecDepth 8000 in
lemma c7pat_not_in_post : ¬ pyStr "Bold\" (\"punchy\")" <:+: genPromptPost := by
  refine no_occ_chunk (by decide) rfl (by decide) ?_
  refine no_occ_chunk (by decide) rfl (by decide) ?_
  refine no_occ_chunk (by decide) rfl (by decide) ?_
  refine no_occ_chunk (by decide) rfl (by decide) ?_
  refine no_occ_chunk (by decide) rfl (by decide) ?_
  refine no_occ_chunk (by decide) rfl (by decide) ?_
  exact no_occ_chunk (by decide) rfl (by decide) (by decide)

set_option maxRecDepth 8000 in
lemma c7pat_not_in_prompt : ¬ pyStr "Bold\" (\"punchy\")" <:+: c7Prompt := by
  have e : c7Prompt = genPromptPre ++ (c7Line ++ genPromptPost) := by
    simp [c7Prompt, List.append_assoc]
  rw [e]
  refine no_occ_chunk (by decide) rfl (by decide) ?_
  exact no_occ_chunk_head (by decide) rfl (by decide) c7pat_not_in_post

lemma build_prompt_c7 :
    build_prompt c7QuizResults c7Questions = .ok c7Prompt := by
  have h1 : (List.zip c7QuizResults c7Questions).enum.mapM
      (fun p => quizLine p.1 p.2.1 p.2.2) = Except.ok [c7Line] := rfl
  have h2 : List.intercalate (pyStr "\n") [c7Line] = c7Line := rfl
  unfold build_prompt
  rw [h1]
  show Except.ok (genPromptPre ++ List.intercalate (pyStr "\n") [c7Line] ++
    genPromptPost) = _
  rw [h2]
  rfl

/-- Counterexample to C7 as stated: on the given quiz test vector the
prompt does not contain the substring `Bold" ("punchy")` — the template
renders the description in bare parentheses, without inner quotes. -/
theorem C7_counterexample :
    build_prompt c7QuizResults c7Questions = .ok c7Prompt ∧
    ¬ pyStr "Bold\" (\"punchy\")" <:+: c7Prompt :=
  ⟨build_prompt_c7, c7pat_not_in_prompt⟩

/-- C7 amended: on the given quiz test vector the prompt contains the
literal substring `Bold" (punchy)` (the option's label in quotes followed
by its description in bare parentheses). -/
theorem C7_prompt_contains :
    build_prompt c7QuizResults c7Questions = .ok c7Prompt ∧
    pyStr "Bold\" (punchy)" <:+: c7Prompt := by
  refine ⟨build_prompt_c7, ?_⟩
  have hl : pyStr "Bold\" (punchy)" <:+: c7Line := by decide
  have hmid : c7Line <:+: c7Prompt := ⟨genPromptPre, genPromptPost, rfl⟩
  exact hl.trans hmid

/-- Witness for C5: the fence equivalence at the concrete JSON text `{}`. -/
theorem C5_witness :
    parse_response_gen (fenceWrap (pyStr "json") (pyStr "\x7b\x7d")) =
      parse_response_gen (pyStr "\x7b\x7d") ∧
    parse_response_gen (fenceWrap [] (pyStr "\x7b\x7d")) =
      parse_response_gen (pyStr "\x7b\x7d") ∧
    parse_response_refine (fenceWrap (pyStr "json") (pyStr "\x7b\x7d")) =
      parse_response_refine (pyStr "\x7b\x7d") ∧
    parse_response_refine (fenceWrap [] (pyStr "\x7b\x7d")) =
      parse_response_refine (pyStr "\x7b\x7d") :=
  C5_fence_strip_equiv (pyStr "\x7b\x7d") (by decide)

set_option maxRecDepth 8000 in
/-- Counterexample to C2 as stated: with a valid key, a valid request body
and a provider reply whose content is `not json at all`, both handlers
return HTTP **400** with the same "Invalid JSON" message family used for
malformed request bodies — not the claimed distinct HTTP 500. -/
theorem C2_counterexample :
    (refine_do_POST (some cKey) cRefineBody (.reply cBadReply)).status = 400 ∧
    (refine_do_POST (some cKey) cRefineBody (.reply cBadReply)).body =
      .err .invalidJson ∧
    (generate_do_POST (some cKey) cGenBody (.resp 200 cBadReply)).status = 400 ∧
    (generate_do_POST (some cKey) cGenBody (.resp 200 cBadReply)).body =
      .err .invalidJson ∧
    (400 : Nat) ≠ 500 :=
  ⟨rfl, rfl, rfl, rfl, by decide⟩

/-- C2 amended: a provider reply text that is not valid JSON after fence
stripping raises `json.JSONDecodeError` inside the shared `try`, and the
`except json.JSONDecodeError` arm — the same arm that classifies malformed
request bodies — surfaces it as HTTP 400 with the "Invalid JSON" message.
It is never a success response, but it is classified exactly like a client
input error, for both endpoints. -/
theorem C2_malformed_reply_is_400 :
    ∀ content : PyStr, jsonLoads (stripFences content) = none →
      (∀ (k body rb : PyStr) (fs : List (PyStr × Json)) (result : Json) (p : PyStr),
        k.isEmpty = false → ¬ k.length < 10 →
        jsonLoads body = some (.obj fs) →
        pyFalsy (pyGetD fs (pyStr "currentParams") (.obj [])) = false →
        pyFalsy (pyGetD fs (pyStr "instruction") (.str [])) = false →
        build_refine_prompt (pyGetD fs (pyStr "currentParams") (.obj []))
          (pyGetD fs (pyStr "instruction") (.str [])) = .ok p →
        jsonLoads rb = some result →
        extractRefine result = .ok (.str content) →
        refine_do_POST (some k) body (.reply rb) =
          ⟨400, .err .invalidJson, true⟩) ∧
      (∀ (k body rb : PyStr) (fs : List (PyStr × Json)) (result : Json) (p : PyStr),
        k.isEmpty = false →
        jsonLoads body = some (.obj fs) →
        pyFalsy (pyGetD fs (pyStr "quizResults") (.arr [])) = false →
        pyFalsy (pyGetD fs (pyStr "questions") (.arr [])) = false →
        genBuildFromJson (pyGetD fs (pyStr "quizResults") (.arr []))
          (pyGetD fs (pyStr "questions") (.arr [])) = .ok p →
        jsonLoads rb = some result →
        genExtractContent result = .ok (.str content) →
        generate_do_POST (some k) body (.resp 200 rb) =
          ⟨400, .err .invalidJson, true⟩) := by
  intro content hcontent
  have hpr : parse_response_refine content = .error .jsonDecode := by
    unfold parse_response_refine
    rw [hcontent]
  have hpg : parse_response_gen content = .error .jsonDecode := by
    unfold parse_response_gen
    rw [hcontent]
  constructor
  · intro k body rb fs result p hk hklen hbody hcp hins hprompt hrb hext
    simp [refine_do_POST, refine_net_stage, hbody, hk, hklen, hcp, hins,
      hprompt, hrb, hext, hpr, dispatchErrPair]
  · intro k body rb fs result p hk hbody hqr hqs hprompt hrb hext
    simp [generate_do_POST, generate_net_stage, hbody, hk, hqr, hqs,
      hprompt, hrb, hext, hpg, dispatchErrPair]

set_option maxRecDepth 8000 in
/-- Witness for C2's amended theorem: the concrete inputs of the
counterexample discharge every hypothesis. -/
theorem C2_witness :
    refine_do_POST (some cKey) cRefineBody (.reply cBadReply) =
      ⟨400, .err .invalidJson, true⟩ :=
  (C2_malformed_reply_is_400 (pyStr "not json at all") rfl).1 cKey cRefineBody
    cBadReply [(pyStr "currentParams", .obj [(pyStr "brightness", .num (.rat 1))]),
      (pyStr "instruction", .str (pyStr "warmer"))]
    (.obj [(pyStr "choices", .arr [.obj [(pyStr "message",
      .obj [(pyStr "content", .str (pyStr "not json at all"))])]])])
    _ rfl (by decide) rfl rfl rfl rfl rfl rfl

set_option maxRecDepth 8000 in
/-- Counterexample to C8 as stated: `generate-filter.py` has no
minimum-length check on the API key, so a one-character key is not
rejected with a configuration error — the outbound call is made and the
request succeeds. -/
theorem C8_counterexample :
    (pyStr "x").length < 10 ∧
    (generate_do_POST (some (pyStr "x")) cGenBody
      (.resp 200 cGoodReply)).madeCall = true ∧
    (generate_do_POST (some (pyStr "x")) cGenBody
      (.resp 200 cGoodReply)).status = 200 :=
  ⟨by decide, rfl, rfl⟩

/-- C8 amended: an absent or empty API key yields HTTP 500 with the
configuration-error message before any outbound call, on all three
endpoints, and the handler returns normally (no crash).
An implausibly short key is likewise rejected by `refine-filter.py` and
`match-style.py` — but `generate-filter.py` has no length check, and with
any non-empty key and a valid body its outbound call is made. -/
theorem C8_api_key_gate :
    (∀ body net, refine_do_POST none body net = ⟨500, .err .apiKeyMissing, false⟩) ∧
    (∀ body net, refine_do_POST (some []) body net = ⟨500, .err .apiKeyMissing, false⟩) ∧
    (∀ (k body : PyStr) (net : UrlOutcome), k.isEmpty = false → k.length < 10 →
      refine_do_POST (some k) body net = ⟨500, .err .apiKeyInvalid, false⟩) ∧
    (∀ body net, match_do_POST none body net = ⟨500, .err .apiKeyMissing, false⟩) ∧
    (∀ body net, match_do_POST (some []) body net = ⟨500, .err .apiKeyMissing, false⟩) ∧
    (∀ (k body : PyStr) (net : UrlOutcome), k.isEmpty = false → k.length < 10 →
      match_do_POST (some k) body net = ⟨500, .err .apiKeyInvalid, false⟩) ∧
    (∀ body net, generate_do_POST none body net = ⟨500, .err .apiKeyMissing, false⟩) ∧
    (∀ body net, generate_do_POST (some []) body net = ⟨500, .err .apiKeyMissing, false⟩) ∧
    (∀ (k body : PyStr) (net : HttpxOutcome) (fs : List (PyStr × Json)) (p : PyStr),
      k.isEmpty = false →
      jsonLoads body = some (.obj fs) →
      pyFalsy (pyGetD fs (pyStr "quizResults") (.arr [])) = false →
      pyFalsy (pyGetD fs (pyStr "questions") (.arr [])) = false →
      genBuildFromJson (pyGetD fs (pyStr "quizResults") (.arr []))
        (pyGetD fs (pyStr "questions") (.arr [])) = .ok p →
      (generate_do_POST (some k) body net).madeCall = true) := by
  refine ⟨fun _ _ => rfl, fun _ _ => rfl, ?_, fun _ _ => rfl, fun _ _ => rfl, ?_,
    fun _ _ => rfl, fun _ _ => rfl, ?_⟩
  · intro k body net hk hlen
    simp [refine_do_POST, hk, hlen]
  · intro k body net hk hlen
    simp [match_do_POST, hk, hlen]
  · intro k body net fs p hk hbody hqr hqs hprompt
    simp [generate_do_POST, hbody, hk, hqr, hqs, hprompt]

set_option maxRecDepth 8000 in
/-- Witness for C8's amended theorem: the short-key rejection of
`refine-filter.py` at the concrete key `x`. -/
theorem C8_witness :
    refine_do_POST (some (pyStr "x")) cRefineBody (.urlError) =
      ⟨500, .err .apiKeyInvalid, false⟩ :=
  C8_api_key_gate.2.2.1 (pyStr "x") cRefineBody .urlError rfl (by decide)

lemma exbind_ok {α β : Type} (a : α) (f : α → Except PyErr β) :
    (Except.ok a >>= f : Except PyErr β) = f a := rfl

lemma expure_eq {α : Type} (a : α) : (pure a : Except PyErr α) = .ok a := rfl

lemma pyIndexInt_neg_one {xs : List Json} {v : Json} (h : xs.getLast? = some v) :
    pyIndexInt (.arr xs) (-1) = .ok v := by
  have hne : xs ≠ [] := by
    intro he
    rw [he] at h
    simp at h
  have hlen : 0 < xs.length := List.length_pos.mpr hne
  have hget : xs.get? (xs.length - 1) = some v := by
    rw [List.get?_eq_getElem?, ← List.getLast?_eq_getElem?]
    exact h
  have e2 : ((xs.length : Int) + -1).toNat = xs.length - 1 := by omega
  simp only [pyIndexInt]
  rw [if_pos (by norm_num : (-1 : Int) < 0)]
  rw [if_neg (by omega : ¬ ((xs.length : Int) + -1 < 0))]
  rw [e2, hget]

/-- C10.  In `refine-filter.py` only, when the provider reply has a
choices list whose first message has empty content, `call_openrouter` does
not immediately fail: it returns the content of the last
`reasoning_details` entry when that is non-empty, otherwise the message's
`reasoning` field when present and non-empty, and raises the
empty-content error only when all sources are empty. -/
theorem C10_reasoning_fallbacks :
    ∀ msgFields : List (PyStr × Json),
      pyGetD msgFields (pyStr "content") (.str []) = .str [] →
      ((∀ (rds : List Json) (lastFields : List (PyStr × Json)) (c : Json),
          objFind msgFields (pyStr "reasoning_details") = some (.arr rds) →
          rds.getLast? = some (.obj lastFields) →
          pyGetD lastFields (pyStr "content") (.str []) = c →
          pyFalsy c = false →
          extractRefine (c10Result msgFields) = .ok c) ∧
       (∀ r : Json,
          objFind msgFields (pyStr "reasoning_details") = none →
          objFind msgFields (pyStr "reasoning") = some r →
          pyFalsy r = false →
          extractRefine (c10Result msgFields) = .ok r) ∧
       (objFind msgFields (pyStr "reasoning_details") = none →
        objFind msgFields (pyStr "reasoning") = none →
        extractRefine (c10Result msgFields) = .error .raisedEmptyContent)) := by
  intro msgFields hcontent
  have hred : extractRefine (c10Result msgFields) =
      reasoningFallback (.obj msgFields)
        (pyGetD msgFields (pyStr "content") (.str [])) := rfl
  rw [hred, hcontent]
  have hfStr : pyFalsy (Json.str []) = true := rfl
  refine ⟨?_, ?_, ?_⟩
  · intro rds lastFields c hrd hlast hc hfc
    have hne : rds ≠ [] := by
      intro he
      rw [he] at hlast
      simp at hlast
    have hkey : pyHasKey msgFields (pyStr "reasoning_details") = true := by
      simp [pyHasKey, hrd]
    have hgetd : pyGetD msgFields (pyStr "reasoning_details") (.arr []) =
        .arr rds := by
      simp [pyGetD, hrd]
    have hfArr : pyFalsy (Json.arr rds) = false := by
      simp [pyFalsy, List.isEmpty_iff, hne]
    have hlen0 : 0 < rds.length := List.length_pos.mpr hne
    have hidx := pyIndexInt_neg_one hlast
    simp only [reasoningFallback, pyContains, pyGet, pyLen, exbind_ok,
      expure_eq, hkey, hgetd, hfArr, hfStr, hlen0, hidx, hc, hfc,
      eq_self_iff_true, if_true, Bool.false_eq_true, if_false, iff_true]
  · intro r hrd hr hfr
    have hkey : pyHasKey msgFields (pyStr "reasoning_details") = false := by
      simp [pyHasKey, hrd]
    have hkeyR : pyHasKey msgFields (pyStr "reasoning") = true := by
      simp [pyHasKey, hr]
    have hgr : pyGetD msgFields (pyStr "reasoning") (.str []) = r := by
      simp [pyGetD, hr]
    simp only [reasoningFallback, pyContains, pyGet, exbind_ok, expure_eq,
      hkey, hkeyR, hgr, hfr, hfStr,
      eq_self_iff_true, if_true, Bool.false_eq_true, if_false, iff_true]
  · intro hrd hr
    have hkey : pyHasKey msgFields (pyStr "reasoning_details") = false := by
      simp [pyHasKey, hrd]
    have hkeyR : pyHasKey msgFields (pyStr "reasoning") = false := by
      simp [pyHasKey, hr]
    simp only [reasoningFallback, pyContains, pyGet, exbind_ok, expure_eq,
      hkey, hkeyR, hfStr,
      eq_self_iff_true, if_true, Bool.false_eq_true, if_false, iff_true]

set_option maxRecDepth 8000 in
/-- Witness for C10: empty content with one reasoning-details entry
carrying `hello`. -/
theorem C10_witness :
    extractRefine (c10Result c10MsgA) = .ok (.str (pyStr "hello")) :=
  (C10_reasoning_fallbacks c10MsgA rfl).1
    [.obj [(pyStr "content", .str (pyStr "hello"))]]
    [(pyStr "content", .str (pyStr "hello"))]
    (.str (pyStr "hello")) rfl rfl rfl rfl

end VIDNA
